import Mathlib

/-!
Shallow embedding of the `storage_area` / `storage_area_store` subsystem of
the repository (src/subsys/storage/storage_area/), together with proofs that
settle the frozen claims C1..C10.

Modelling conventions:
* Machine bytes are `Nat` values (< 256 where written by the code); the
  medium is a byte-addressed total function `Mem := Nat → Nat`.
* `size_t` arithmetic that can wrap is made explicit with `size_t_sub`
  (subtraction modulo 2^64); everywhere else sizes are plain `Nat`.
* Fallible underlying writes are driven by a fault oracle
  `wfail : Nat → Bool` giving, per write offset, whether the medium write at
  that offset fails.  Reads are modelled as always succeeding (claims that
  need "no medium errors" use the all-false oracle).
* C loops are embedded as fuel recursion; every wrapper passes fuel that
  strictly dominates the number of iterations the C loop can make for any
  well-formed geometry (write_size >= 1), so the fuel-exhaustion sentinel
  (-1000) is unreachable in the situations the theorems describe.
* The vtable `storage_area_store_api` (ro/scb/pcb) is embedded as the tag
  `ApiKind`; a NULL `writev`/`advance` member corresponds to `ApiKind.ro`.
* NULL-pointer checks of `store_valid` are unrepresentable (references in
  the embedding always exist); `store_valid` is therefore constantly true.
-/

namespace SAS

/-- Byte-addressed medium. -/
abbrev Mem := Nat → Nat

def SAS_MAGIC : Nat := 0xF0
def SAS_HDRSIZE : Nat := 4
def SAS_CRCINIT : Nat := 0
def SAS_CRCSIZE : Nat := 4
def SAS_FILLVALUE : Nat := 0xFF

/-- Subtraction of C `size_t` values (64-bit, wrapping).  For `b ≤ a < 2^64`
this is plain subtraction; for `b > a` it wraps around like the C code. -/
def size_t_sub (a b : Nat) : Nat := (a + (2 ^ 64 - b % 2 ^ 64)) % 2 ^ 64

/-- C macro `SAS_ALIGNDOWN(num, align) = num & ~(align - 1)`; for the
power-of-two `align` used by the code this equals `num - num % align`. -/
def SAS_ALIGNDOWN (num align : Nat) : Nat := num - num % align

/-- C macro `SAS_ALIGNUP(num, align) = (num + align - 1) & ~(align - 1)`. -/
def SAS_ALIGNUP (num align : Nat) : Nat := SAS_ALIGNDOWN (num + align - 1) align

/-- Write a list of bytes to the medium at consecutive addresses starting
at `off` (addresses outside the range keep their old content). -/
def writeBytes (mem : Mem) (off : Nat) (bs : List Nat) : Mem :=
  fun a => if off ≤ a ∧ a < off + bs.length then bs.getD (a - off) 0 else mem a

/-- Read `len` bytes starting at `off`. -/
def readBytes (mem : Mem) (off len : Nat) : List Nat :=
  (List.range len).map fun i => mem (off + i)

/-- C `memcpy(dst + off, src, src.length)` on a buffer held as a list. -/
def memcpy_at (dst : List Nat) (off : Nat) (src : List Nat) : List Nat :=
  dst.take off ++ src ++ dst.drop (off + src.length)

def sys_put_le16 (v : Nat) : List Nat := [v % 256, v / 256 % 256]

def sys_get_le16 (b0 b1 : Nat) : Nat := b0 + 256 * b1

def sys_put_le32 (v : Nat) : List Nat :=
  [v % 256, v / 256 % 256, v / 65536 % 256, v / 16777216 % 256]

def sys_get_le32 (bs : List Nat) : Nat :=
  bs.getD 0 0 + 256 * bs.getD 1 0 + 65536 * bs.getD 2 0 + 16777216 * bs.getD 3 0

/-- One shift step of the bitwise CRC-32/IEEE computation. -/
def crc32_step (c : Nat) : Nat :=
  if c % 2 = 1 then c / 2 ^^^ 0xEDB88320 else c / 2

/-- Zephyr `crc32_ieee_update` over a byte list (the C library routine the
store links against; the nibble-table implementation computes the same
function).  The store always reads/accumulates chunkwise, which composes to
a single fold over the concatenated bytes. -/
def crc32_ieee_update (crc : Nat) (data : List Nat) : Nat :=
  (data.foldl (fun c b => crc32_step^[8] (c ^^^ b)) (crc ^^^ 0xFFFFFFFF)) ^^^ 0xFFFFFFFF

/-- `struct storage_area` (immutable descriptor). -/
structure StorageArea where
  write_size : Nat
  erase_size : Nat
  erase_blocks : Nat
  props : Nat

def STORAGE_AREA_PROP_READONLY : Nat := 1
def STORAGE_AREA_PROP_FOVRWRITE : Nat := 2
def STORAGE_AREA_PROP_LOVRWRITE : Nat := 4
def STORAGE_AREA_PROP_ZEROERASE : Nat := 8
def STORAGE_AREA_PROP_AUTOERASE : Nat := 16

def STORAGE_AREA_HAS_PROPERTY (area : StorageArea) (p : Nat) : Bool :=
  area.props &&& p == p

def STORAGE_AREA_FOVRWRITE (area : StorageArea) : Bool :=
  STORAGE_AREA_HAS_PROPERTY area STORAGE_AREA_PROP_FOVRWRITE

def STORAGE_AREA_LOVRWRITE (area : StorageArea) : Bool :=
  STORAGE_AREA_HAS_PROPERTY area STORAGE_AREA_PROP_LOVRWRITE

def STORAGE_AREA_AUTOERASE (area : StorageArea) : Bool :=
  STORAGE_AREA_HAS_PROPERTY area STORAGE_AREA_PROP_AUTOERASE

def STORAGE_AREA_ERASEVALUE (area : StorageArea) : Nat :=
  if STORAGE_AREA_HAS_PROPERTY area STORAGE_AREA_PROP_ZEROERASE then 0x00 else 0xFF

/-- Tag standing for the three concrete `storage_area_store_api` vtables;
`ro` has NULL `writev`/`advance` members. -/
inductive ApiKind where
  | ro
  | scb
  | pcb
deriving DecidableEq

/-- `struct storage_area_store_data` (runtime state; the optional semaphore
is compiled out in this configuration). -/
structure StoreData where
  ready : Bool
  sector : Nat
  loc : Nat
  wrapcnt : Nat
deriving DecidableEq

/-- `struct storage_area_store` (configuration). -/
structure Store where
  area : StorageArea
  api : ApiKind
  sector_cookie : Option (List Nat)
  sector_cookie_size : Nat
  sector_size : Nat
  sector_cnt : Nat
  spare_sectors : Nat
  crc_skip : Nat

/-- `struct storage_area_record` without the store back-pointer (the store
is passed alongside; a NULL back-pointer is modelled by `Option Rec` at the
cursor API). -/
structure Rec where
  sector : Nat
  loc : Nat
  size : Nat
deriving DecidableEq

/-- `store_valid`: NULL checks on store/data/area are unrepresentable in the
embedding, so this is constantly true. -/
def store_valid (_store : Store) : Bool := true

/-- `store_ready`. -/
def store_ready (store : Store) (d : StoreData) : Bool :=
  store_valid store && d.ready

/-- `sector_advance` (wraps at `sector_cnt`). -/
def sector_advance (store : Store) (sector : Nat) : Nat → Nat
  | 0 => sector
  | cnt + 1 =>
      sector_advance store (if sector + 1 = store.sector_cnt then 0 else sector + 1) cnt

/-- `store_iovec_size` over a write iovec (list of byte spans). -/
def store_iovec_size (iovec : List (List Nat)) : Nat :=
  (iovec.map List.length).sum

/-- `store_record_valid`: recompute the CRC-32 over `payload[crc_skip..]`
and compare with the stored little-endian CRC.  The C routine reads in
chunks of `max(32, write_size)` bytes; chunkwise accumulation equals the
fold over all bytes, and reads in the model cannot fail. -/
def store_record_valid (store : Store) (mem : Mem) (rec : Rec) : Bool :=
  let recpos := rec.sector * store.sector_size + rec.loc + SAS_HDRSIZE + store.crc_skip
  let rdlen := size_t_sub rec.size store.crc_skip
  let crc := crc32_ieee_update SAS_CRCINIT (readBytes mem recpos rdlen)
  crc == sys_get_le32 (readBytes mem (recpos + rdlen) SAS_CRCSIZE)

/-- Next candidate offset of the in-sector scan: step over the previous
frame (`record->size ≠ 0`) and align to the write block size. -/
def scan_rdpos (store : Store) (loc size : Nat) : Nat :=
  if size ≠ 0 then
    SAS_ALIGNUP (loc + (SAS_HDRSIZE + size + SAS_CRCSIZE)) store.area.write_size
  else loc

/-- Candidate size field read from the header at `rdpos` (little endian). -/
def scan_rsize (store : Store) (mem : Mem) (sector rdpos : Nat) : Nat :=
  sys_get_le16 (mem (sector * store.sector_size + rdpos + 2))
    (mem (sector * store.sector_size + rdpos + 3))

/-- `size_ok` of the in-sector scan:
`0 < rsize < sector_size - rdpos - SAS_CRCSIZE - SAS_HDRSIZE` (the bound is
computed in `size_t` arithmetic exactly like the C code). -/
def scan_size_ok (store : Store) (mem : Mem) (sector rdpos : Nat) : Bool :=
  decide (0 < scan_rsize store mem sector rdpos) &&
  decide (scan_rsize store mem sector rdpos <
    size_t_sub store.sector_size (rdpos + SAS_CRCSIZE + SAS_HDRSIZE))

/-- Magic-byte check of the in-sector scan. -/
def scan_magic_ok (store : Store) (mem : Mem) (sector rdpos : Nat) : Bool :=
  mem (sector * store.sector_size + rdpos) == SAS_MAGIC

/-- Wrap-counter check of the in-sector scan: the read byte is incremented
for sectors after the current write sector (`record->sector > data->sector`)
and forced when `wrapcheck` is off. -/
def scan_wrap_ok (store : Store) (d : StoreData) (mem : Mem) (sector rdpos : Nat)
    (wrapcheck : Bool) : Bool :=
  let b1 := mem (sector * store.sector_size + rdpos + 1)
  let b1a := if sector > d.sector then (b1 + 1) % 256 else b1
  let b1w := if ¬wrapcheck then d.wrapcnt else b1a
  b1w == d.wrapcnt

/-- Loop body of `store_record_next_in_sector`; `loc`, `size`, `crc_ok` are
the mutable loop state (`record->loc`, `record->size`, local `crc_ok`). -/
def scan_loop (store : Store) (d : StoreData) (mem : Mem) (sector : Nat)
    (wrapcheck recover : Bool) : Nat → Nat → Nat → Bool → Int × Rec
  | 0, loc, size, _ => (-1000, ⟨sector, loc, size⟩)
  | fuel + 1, loc, size, crc_ok =>
    let rdpos := scan_rdpos store loc size
    if (d.sector = sector ∧ d.loc ≤ rdpos) ∨ rdpos = store.sector_size then
      (-2, ⟨sector, rdpos, 0⟩)
    else
      let rsize := scan_rsize store mem sector rdpos
      let size_ok := scan_size_ok store mem sector rdpos
      let recloc := if size_ok && !crc_ok then rdpos else loc
      let recsize := if size_ok && !crc_ok then rsize else size
      let crc_ok2 := if size_ok && !crc_ok then
          store_record_valid store mem ⟨sector, rdpos, rsize⟩
        else crc_ok
      if scan_magic_ok store mem sector rdpos &&
          scan_wrap_ok store d mem sector rdpos wrapcheck && size_ok && crc_ok2 then
        (0, ⟨sector, rdpos, rsize⟩)
      else if recover = false then
        (-2, ⟨sector, recloc, recsize⟩)
      else
        scan_loop store d mem sector wrapcheck recover fuel
          (recloc + store.area.write_size) 0 false

/-- `store_record_next_in_sector`.  The C loop advances `record->loc` by at
least `write_size` per iteration, or exits, so with `write_size ≥ 1` the
fuel `sector_size + 2` dominates the iteration count. -/
def store_record_next_in_sector (store : Store) (d : StoreData) (mem : Mem)
    (rec : Rec) (wrapcheck recover : Bool) : Int × Rec :=
  let loc0 := if rec.loc = 0 ∧ store.sector_cookie ≠ none ∧ store.sector_cookie_size ≠ 0 then
      SAS_ALIGNUP store.sector_cookie_size store.area.write_size
    else rec.loc
  scan_loop store d mem rec.sector wrapcheck recover (store.sector_size + 1 + 1) loc0 rec.size true

/-- Sector loop of `storage_area_record_next`. -/
def record_next_loop (store : Store) (d : StoreData) (mem : Mem) : Nat → Rec → Int × Rec
  | 0, rec => (-1000, rec)
  | fuel + 1, rec =>
    let r := store_record_next_in_sector store d mem rec true true
    if r.1 ≠ -2 then r
    else if r.2.sector = d.sector then r
    else record_next_loop store d mem fuel ⟨sector_advance store r.2.sector 1, 0, 0⟩

/-- `storage_area_record_next`; `cur = none` models `record->store == NULL`
(first call). -/
def storage_area_record_next (store : Store) (d : StoreData) (mem : Mem)
    (cur : Option Rec) : Int × Rec :=
  if store_valid store = false then (-22, cur.getD ⟨0, 0, 0⟩)
  else
    let rec0 := match cur with
      | none => (⟨sector_advance store d.sector (store.spare_sectors + 1), 0, 0⟩ : Rec)
      | some r => r
    record_next_loop store d mem (store.sector_cnt + 1 + 1) rec0

/-- `storage_area_record_readv`; the read iovec is kept as its span lengths
and the scattered destination as the flat list of bytes read. -/
def storage_area_record_readv (store : Store) (mem : Mem) (rec : Rec)
    (start : Nat) (lens : List Nat) : Int × List Nat :=
  if store_valid store = false ∨ store.sector_size < rec.loc ∨
      store.sector_size < rec.size ∨ rec.size < start + lens.sum then
    (-22, [])
  else
    (0, readBytes mem (rec.sector * store.sector_size + rec.loc + start + SAS_HDRSIZE) lens.sum)

/-- C conversion of an `int` to `bool` (nonzero is true). -/
def int_as_bool (i : Int) : Bool := i != 0

/-- `storage_area_record_valid` (public).  When the store is not ready the C
code executes `return -EINVAL;` inside a `bool`-returning function, which
converts to `true`. -/
def storage_area_record_valid (store : Store) (d : StoreData) (mem : Mem)
    (rec : Rec) : Bool :=
  if store_ready store d = false then int_as_bool (-22)
  else store_record_valid store mem rec

/-- Read-modify-write loop of `storage_area_record_update`; one iteration
rewrites one aligned `write_size` block.  The C source pointer `data8` is
never advanced between iterations (only `len`, `rpos` and `apos` are
mutated), so every block copies `modlen` bytes from the start of `data`:
the loop state carries the full `data` list unchanged together with the
remaining length `len`. -/
def update_loop (store : Store) (wfail : Nat → Bool) (secpos : Nat) :
    Nat → Mem → List Nat → Nat → Nat → Nat → Int × Mem
  | 0, mem, _, _, _, _ => (-1000, mem)
  | fuel + 1, mem, data, len, rpos, apos =>
    if len = 0 then (0, mem)
    else
      let align := store.area.write_size
      let modlen := min len (align - (rpos - apos))
      let buf := readBytes mem (secpos + apos) align
      let buf2 := memcpy_at buf (rpos - apos) (data.take modlen)
      if wfail (secpos + apos) then (-5, mem)
      else
        update_loop store wfail secpos fuel (writeBytes mem (secpos + apos) buf2)
          data (len - modlen) (rpos + modlen) (apos + align)

/-- `storage_area_record_update`. -/
def storage_area_record_update (store : Store) (wfail : Nat → Bool) (d : StoreData)
    (mem : Mem) (rec : Rec) (data : List Nat) : Int × Mem :=
  if STORAGE_AREA_FOVRWRITE store.area = false ∧ STORAGE_AREA_LOVRWRITE store.area = false then
    (-134, mem)
  else if storage_area_record_valid store d mem rec = false ∨ store.crc_skip < data.length then
    (-22, mem)
  else
    let secpos := rec.sector * store.sector_size
    let rpos := rec.loc + SAS_HDRSIZE
    let apos := SAS_ALIGNDOWN rpos store.area.write_size
    update_loop store wfail secpos (data.length + 1) mem data data.length rpos apos

/-- CRC accumulation of `store_writev` across the iovec spans, skipping the
first `crc_skip` payload bytes. -/
def writev_crc : Nat → Nat → List (List Nat) → Nat
  | crc, _, [] => crc
  | crc, skip, span :: rest =>
    if span.length ≤ skip then writev_crc crc (skip - span.length) rest
    else writev_crc (crc32_ieee_update crc (span.drop skip)) 0 rest

/-- Retry loop of `store_writev`: attempt the whole frame at `secpos + loc`;
on failure advance `loc` by `write_size` and retry while `loc ≤ S`
(`S = sector_size - len` in `size_t` arithmetic). -/
def store_writev_loop (store : Store) (wfail : Nat → Bool) (secpos S len : Nat)
    (frame : List Nat) : Nat → Mem → Nat → Int × Mem × Nat
  | 0, mem, loc => (-1000, mem, loc)
  | fuel + 1, mem, loc =>
    if wfail (secpos + loc) = false then
      (0, writeBytes mem (secpos + loc) frame, loc + SAS_ALIGNUP len store.area.write_size)
    else
      let loc2 := loc + store.area.write_size
      if S < loc2 then (-28, mem, loc2)
      else store_writev_loop store wfail secpos S len frame fuel mem loc2

/-- `store_writev` (the scb/pcb `api->writev` implementation). -/
def store_writev (store : Store) (wfail : Nat → Bool) (mem : Mem) (d : StoreData)
    (iovec : List (List Nat)) : Int × Mem × StoreData :=
  let len := SAS_HDRSIZE + store_iovec_size iovec + SAS_CRCSIZE
  if size_t_sub store.sector_size len < d.loc then (-28, mem, d)
  else
    let W := store.area.write_size
    let secpos := d.sector * store.sector_size
    let hbuf := [SAS_MAGIC, d.wrapcnt] ++ sys_put_le16 (store_iovec_size iovec)
    let crc := writev_crc SAS_CRCINIT store.crc_skip iovec
    let cbuf := sys_put_le32 crc ++ List.replicate (SAS_ALIGNUP len W - len) SAS_FILLVALUE
    let frame := hbuf ++ iovec.flatten ++ cbuf
    let S := size_t_sub store.sector_size len
    let r := store_writev_loop store wfail secpos S len frame (S + 1 + 1) mem d.loc
    (r.1, r.2.1, { d with loc := r.2.2 })

/-- `storage_area_erase` effect on the medium (erase `bcnt` erase blocks
from `sblk`). -/
def storage_area_erase (area : StorageArea) (mem : Mem) (sblk bcnt : Nat) : Mem :=
  fun a =>
    if sblk * area.erase_size ≤ a ∧ a < (sblk + bcnt) * area.erase_size then
      STORAGE_AREA_ERASEVALUE area
    else mem a

/-- Fill loop of `store_fill_sector` (chunks of `max(32, write_size)`
fill bytes). -/
def fill_sector_loop (store : Store) (wfail : Nat → Bool) (secpos : Nat) :
    Nat → Mem → Nat → Int × Mem × Nat
  | 0, mem, loc => (-1000, mem, loc)
  | fuel + 1, mem, loc =>
    if loc < store.sector_size then
      let wlen := min (max 32 store.area.write_size) (store.sector_size - loc)
      if wfail (secpos + loc) then (-5, mem, loc)
      else
        fill_sector_loop store wfail secpos fuel
          (writeBytes mem (secpos + loc) (List.replicate wlen SAS_FILLVALUE)) (loc + wlen)
    else (0, mem, loc)

/-- `store_fill_sector`. -/
def store_fill_sector (store : Store) (wfail : Nat → Bool) (mem : Mem)
    (d : StoreData) : Int × Mem × StoreData :=
  let secpos := d.sector * store.sector_size
  let r := fill_sector_loop store wfail secpos (store.sector_size + 1 + 1) mem d.loc
  (r.1, r.2.1, { d with loc := r.2.2 })

/-- `store_erase_block` (erase failures of the underlying medium are not
modelled). -/
def store_erase_block (store : Store) (mem : Mem) (d : StoreData) : Int × Mem :=
  if (d.sector * store.sector_size) % store.area.erase_size ≠ 0 then (0, mem)
  else
    let sblock := d.sector * store.sector_size / store.area.erase_size
    let bcnt := max 1 (store.sector_size / store.area.erase_size)
    (0, storage_area_erase store.area mem sblock bcnt)

/-- `store_add_cookie`. -/
def store_add_cookie (store : Store) (wfail : Nat → Bool) (mem : Mem)
    (d : StoreData) : Int × Mem × StoreData :=
  if d.loc ≠ 0 ∨ store.sector_cookie = none ∨ store.sector_cookie_size = 0 then (0, mem, d)
  else
    let ck := (store.sector_cookie.getD []).take store.sector_cookie_size
    let fillsz := SAS_ALIGNUP store.sector_cookie_size store.area.write_size -
      store.sector_cookie_size
    let wroff := d.sector * store.sector_size
    if wfail wroff then (-5, mem, d)
    else
      (0, writeBytes mem wroff (ck ++ List.replicate fillsz SAS_FILLVALUE),
        { d with loc := store.sector_cookie_size + fillsz })

/-- `store_advance_scb` (the scb `api->advance`; also the whole of the pcb
advance when the compact callback is NULL). -/
def store_advance_scb (store : Store) (wfail : Nat → Bool) (mem : Mem)
    (d : StoreData) : Int × Mem × StoreData :=
  let f := if STORAGE_AREA_FOVRWRITE store.area then store_fill_sector store wfail mem d
    else (0, mem, d)
  if f.1 ≠ 0 then f
  else
    let sector2 := sector_advance store f.2.2.sector 1
    let wrap2 := if sector2 = 0 then (f.2.2.wrapcnt + 1) % 256 else f.2.2.wrapcnt
    let d2 : StoreData := { f.2.2 with sector := sector2, wrapcnt := wrap2, loc := 0 }
    let e := if STORAGE_AREA_FOVRWRITE store.area = false ∧
        STORAGE_AREA_AUTOERASE store.area = false then
        store_erase_block store f.2.1 d2
      else (0, f.2.1)
    if e.1 ≠ 0 then (e.1, e.2, d2)
    else store_add_cookie store wfail e.2 d2

/-- Copy loop of `store_move_record` (chunks of `max(32, write_size)`;
the first chunk has its byte 1 replaced by the current wrap counter). -/
def move_record_loop (store : Store) (wfail : Nat → Bool) (wrapcnt rdpos wrpos alsize : Nat) :
    Nat → Mem → Nat → Int × Mem × Nat
  | 0, mem, start => (-1000, mem, start)
  | fuel + 1, mem, start =>
    if start < alsize then
      let clen := min (max 32 store.area.write_size) (alsize - start)
      let buf := readBytes mem (rdpos + start) clen
      let buf2 := if start = 0 then memcpy_at buf 1 [wrapcnt] else buf
      if wfail (wrpos + start) then (-5, mem, start)
      else
        move_record_loop store wfail wrapcnt rdpos wrpos alsize fuel
          (writeBytes mem (wrpos + start) buf2) (start + clen)
    else (0, mem, start)

/-- `store_move_record` (the `move_cb` notification has no state effect in
the model and is omitted). -/
def store_move_record (store : Store) (wfail : Nat → Bool) (mem : Mem) (d : StoreData)
    (mv : Rec → Bool) (rec : Rec) : Int × Mem × StoreData :=
  if mv rec = false then (0, mem, d)
  else if store_record_valid store mem rec = false then (0, mem, d)
  else
    let alsize := SAS_ALIGNUP (SAS_HDRSIZE + rec.size + SAS_CRCSIZE) store.area.write_size
    if store.sector_size - alsize < d.loc then (-28, mem, d)
    else
      let rdpos := rec.sector * store.sector_size + rec.loc
      let wrpos := d.sector * store.sector_size + d.loc
      let r := move_record_loop store wfail d.wrapcnt rdpos wrpos alsize
        (alsize + 1 + 1) mem 0
      (r.1, r.2.1, { d with loc := d.loc + r.2.2 })

/-- Retry loop inside `store_advance_pcb`: move a record, advancing to a new
sector while the destination sector is full. -/
def pcb_move_retry (store : Store) (wfail : Nat → Bool) (mv : Rec → Bool) :
    Nat → Mem → StoreData → Rec → Int × Mem × StoreData
  | 0, mem, d, _ => (-1000, mem, d)
  | fuel + 1, mem, d, rec =>
    let r := store_move_record store wfail mem d mv rec
    if r.1 = 0 ∨ r.1 ≠ -28 then r
    else
      let a := store_advance_scb store wfail r.2.1 r.2.2
      if a.1 ≠ 0 then a
      else pcb_move_retry store wfail mv fuel a.2.1 a.2.2 rec

/-- Record walk of one reclaimed sector during pcb compaction. -/
def pcb_sector_walk (store : Store) (wfail : Nat → Bool) (mv : Rec → Bool) :
    Nat → Mem → StoreData → Rec → Int × Mem × StoreData
  | 0, mem, d, _ => (-1000, mem, d)
  | fuel + 1, mem, d, rec =>
    let n := store_record_next_in_sector store d mem rec true true
    if n.1 ≠ 0 then (0, mem, d)
    else
      let r := pcb_move_retry store wfail mv (store.sector_cnt + 2) mem d n.2
      if r.1 ≠ 0 then r
      else pcb_sector_walk store wfail mv fuel r.2.1 r.2.2 n.2

/-- Sector loop of pcb compaction over the reclamation window. -/
def pcb_window_walk (store : Store) (wfail : Nat → Bool) (mv : Rec → Bool) :
    Nat → Mem → StoreData → Nat → Int × Mem × StoreData
  | 0, mem, d, _ => (0, mem, d)
  | scnt + 1, mem, d, wsector =>
    let r := pcb_sector_walk store wfail mv (store.sector_size + 2) mem d
      ⟨wsector, 0, 0⟩
    if r.1 ≠ 0 then r
    else
      pcb_window_walk store wfail mv scnt r.2.1 r.2.2 (sector_advance store wsector 1)

/-- `store_advance_pcb` (the pcb `api->advance`). -/
def store_advance_pcb (store : Store) (wfail : Nat → Bool) (mem : Mem) (d : StoreData)
    (cb : Option (Rec → Bool)) : Int × Mem × StoreData :=
  let r1 := store_advance_scb store wfail mem d
  match cb with
  | none => r1
  | some mv =>
    if r1.1 ≠ 0 then r1
    else if (r1.2.2.sector * store.sector_size) % store.area.erase_size ≠ 0 then r1
    else
      let scnt := max 1 (store.area.erase_size / store.sector_size)
      let wsector := sector_advance store r1.2.2.sector store.spare_sectors
      pcb_window_walk store wfail mv scnt r1.2.1 r1.2.2 wsector

/-- `storage_area_store_writev` (public; `api->writev` is NULL only for the
ro vtable). -/
def storage_area_store_writev (store : Store) (wfail : Nat → Bool) (mem : Mem)
    (d : StoreData) (iovec : List (List Nat)) : Int × Mem × StoreData :=
  if store.api = ApiKind.ro then (-134, mem, d)
  else if store_ready store d = false then (-22, mem, d)
  else store_writev store wfail mem d iovec

/-- `storage_area_store_advance` (public; the pcb advance is invoked with a
NULL compact callback). -/
def storage_area_store_advance (store : Store) (wfail : Nat → Bool) (mem : Mem)
    (d : StoreData) : Int × Mem × StoreData :=
  if store.api = ApiKind.ro then (-134, mem, d)
  else if store_ready store d = false then (-22, mem, d)
  else
    match store.api with
    | ApiKind.ro => (-134, mem, d)
    | ApiKind.scb => store_advance_scb store wfail mem d
    | ApiKind.pcb => store_advance_pcb store wfail mem d none

/-- `storage_area_store_compact` (public). -/
def storage_area_store_compact (store : Store) (wfail : Nat → Bool) (mem : Mem)
    (d : StoreData) (cb : Option (Rec → Bool)) : Int × Mem × StoreData :=
  if store.api = ApiKind.ro then (-134, mem, d)
  else if store_ready store d = false then (-22, mem, d)
  else
    match store.api with
    | ApiKind.ro => (-134, mem, d)
    | ApiKind.scb => store_advance_scb store wfail mem d
    | ApiKind.pcb => store_advance_pcb store wfail mem d cb

/-- `storage_area_store_unmount` (public). -/
def storage_area_store_unmount (store : Store) (d : StoreData) : Int × StoreData :=
  if store_valid store = false then (-22, d)
  else (0, { d with ready := false })

/-- `storage_area_store_wipe` (public). -/
def storage_area_store_wipe (store : Store) (mem : Mem) (d : StoreData) : Int × Mem :=
  if store.api = ApiKind.ro then (-134, mem)
  else if store_valid store = false then (-22, mem)
  else if d.ready = true then (-22, mem)
  else (0, storage_area_erase store.area mem 0 store.area.erase_blocks)

/-- Chunked write of `sa_flash_write` on AUTOERASE-and-not-FOVRWRITE media;
returns the list of (offset, bytes) writes issued to the flash driver.  The
source does not advance `start` between the chunks. -/
def sa_flash_write_loop (area : StorageArea) : Nat → Nat → List Nat → List (Nat × List Nat)
  | 0, _, _ => []
  | fuel + 1, start, data =>
    if data.length = 0 then []
    else
      let wrlen := min (area.erase_size - start % area.erase_size) data.length
      (start, data.take wrlen) :: sa_flash_write_loop area fuel start (data.drop wrlen)

/-- `sa_flash_write`: the writes issued to the flash driver for one aligned
span (the explicit erases on AUTOERASE media are not writes and are not
logged). -/
def sa_flash_write (area : StorageArea) (start : Nat) (data : List Nat) :
    List (Nat × List Nat) :=
  if STORAGE_AREA_AUTOERASE area = false ∨ STORAGE_AREA_FOVRWRITE area = true then
    [(start, data)]
  else sa_flash_write_loop area (data.length + 1) start data

/-- State of the write-block buffering loop of `sa_flash_writev`. -/
structure FlashWvSt where
  start : Nat
  bpos : Nat
  buf : List Nat
  log : List (Nat × List Nat)

/-- Second and third stage of one `sa_flash_writev` iteration: direct write
of the aligned middle part, then buffer the tail. -/
def sa_flash_writev_stage2 (area : StorageArea) (st : FlashWvSt) (data : List Nat) :
    FlashWvSt :=
  let align := area.write_size
  let wrlen := SAS_ALIGNDOWN data.length align
  let st2 := if align ≤ data.length then
      FlashWvSt.mk (st.start + wrlen) st.bpos st.buf
        (st.log ++ sa_flash_write area st.start (data.take wrlen))
    else st
  let data2 := if align ≤ data.length then data.drop wrlen else data
  if 0 < data2.length then { st2 with bpos := data2.length, buf := data2 } else st2

/-- One `sa_flash_writev` iteration (one iovec span): top up the partial
write-block buffer, flush it when full, then the aligned middle and the
tail. -/
def sa_flash_writev_span (area : StorageArea) (st : FlashWvSt) (span : List Nat) :
    FlashWvSt :=
  let align := area.write_size
  if st.bpos = 0 then sa_flash_writev_stage2 area st span
  else
    let cplen := min span.length (align - st.bpos)
    let buf2 := st.buf ++ span.take cplen
    let data2 := span.drop cplen
    if st.bpos + cplen = align then
      sa_flash_writev_stage2 area
        (FlashWvSt.mk (st.start + align) 0 []
          (st.log ++ sa_flash_write area st.start buf2)) data2
    else
      sa_flash_writev_stage2 area
        (FlashWvSt.mk st.start (st.bpos + cplen) buf2 st.log) data2

/-- `sa_flash_writev`: the writes issued to the flash driver for a whole
iovec written at `start`. -/
def sa_flash_writev (area : StorageArea) (start : Nat) (iovec : List (List Nat)) :
    List (Nat × List Nat) :=
  (iovec.foldl (sa_flash_writev_span area) ⟨start, 0, [], []⟩).log

/-! ## Basic arithmetic and byte-buffer lemmas -/

theorem writeBytes_apply (mem : Mem) (off : Nat) (bs : List Nat) (a : Nat) :
    writeBytes mem off bs a =
      if off ≤ a ∧ a < off + bs.length then bs.getD (a - off) 0 else mem a := rfl

theorem writeBytes_apply_out (mem : Mem) (off : Nat) (bs : List Nat) (a : Nat)
    (h : a < off ∨ off + bs.length ≤ a) : writeBytes mem off bs a = mem a := by
  rw [writeBytes_apply, if_neg (by omega)]

theorem writeBytes_apply_in (mem : Mem) (off : Nat) (bs : List Nat) (a : Nat)
    (h1 : off ≤ a) (h2 : a < off + bs.length) :
    writeBytes mem off bs a = bs.getD (a - off) 0 := by
  rw [writeBytes_apply, if_pos ⟨h1, h2⟩]

theorem length_readBytes (mem : Mem) (off len : Nat) :
    (readBytes mem off len).length = len := by
  simp [readBytes]

theorem readBytes_getD (mem : Mem) (off len i : Nat) (h : i < len) :
    (readBytes mem off len).getD i 0 = mem (off + i) := by
  simp [readBytes, List.getD_eq_getElem?_getD, List.getElem?_map, List.getElem?_range, h]

theorem readBytes_eq_of (mem : Mem) (off len : Nat) (l : List Nat)
    (hl : l.length = len) (hp : ∀ i, i < len → mem (off + i) = l.getD i 0) :
    readBytes mem off len = l := by
  apply List.ext_getElem (by simp [length_readBytes, hl])
  intro i h1 h2
  have hi : i < len := by simpa [length_readBytes] using h1
  have := hp i hi
  simp only [readBytes, List.getElem_map, List.getElem_range]
  rw [this, List.getD_eq_getElem]

theorem readBytes_congr (m1 m2 : Mem) (off len : Nat)
    (h : ∀ i, i < len → m1 (off + i) = m2 (off + i)) :
    readBytes m1 off len = readBytes m2 off len := by
  simp only [readBytes]
  apply List.map_congr_left
  intro i hi
  exact h i (List.mem_range.mp hi)

theorem alignup_ge (W x : Nat) (hW : 0 < W) : x ≤ SAS_ALIGNUP x W := by
  unfold SAS_ALIGNUP SAS_ALIGNDOWN
  have h := Nat.mod_lt (x + W - 1) hW
  omega

theorem alignup_le_of_le (W x y : Nat) (hW : 0 < W) (h : x ≤ y) (hy : y % W = 0) :
    SAS_ALIGNUP x W ≤ y := by
  unfold SAS_ALIGNUP SAS_ALIGNDOWN
  have hm := Nat.div_add_mod (x + W - 1) W
  have hym := Nat.div_add_mod y W
  have hq : (x + W - 1) / W ≤ y / W := by
    rw [Nat.div_le_iff_le_mul_add_pred hW]
    omega
  have := Nat.mul_le_mul_left W hq
  omega

theorem alignup_mod (W x : Nat) (hW : 0 < W) : SAS_ALIGNUP x W % W = 0 := by
  unfold SAS_ALIGNUP SAS_ALIGNDOWN
  have hm := Nat.div_add_mod (x + W - 1) W
  have : x + W - 1 - (x + W - 1) % W = W * ((x + W - 1) / W) := by omega
  rw [this, Nat.mul_mod_right]

theorem alignup_eq_of_mod (W x : Nat) (hW : 0 < W) (h : x % W = 0) :
    SAS_ALIGNUP x W = x := by
  unfold SAS_ALIGNUP SAS_ALIGNDOWN
  have h1 : x + W - 1 = x + (W - 1) := by omega
  have h2 : (x + (W - 1)) % W = W - 1 := by
    rw [Nat.add_mod, h]
    simp [Nat.mod_eq_of_lt (by omega : W - 1 < W)]
  rw [h1, h2]
  omega

theorem size_t_sub_eq (a b : Nat) (h : b ≤ a) (ha : a < 2 ^ 64) :
    size_t_sub a b = a - b := by
  unfold size_t_sub
  have hb : b % 2 ^ 64 = b := Nat.mod_eq_of_lt (lt_of_le_of_lt h ha)
  rw [hb]
  have h2 : a + (2 ^ 64 - b) = a - b + 2 ^ 64 := by omega
  rw [h2, Nat.add_mod_right, Nat.mod_eq_of_lt (by omega)]

theorem get_put_le16 (P : Nat) (h : P < 65536) :
    sys_get_le16 (P % 256) (P / 256 % 256) = P := by
  unfold sys_get_le16
  omega

theorem length_flatten_eq_iovec_size (iovec : List (List Nat)) :
    iovec.flatten.length = store_iovec_size iovec := by
  simp [store_iovec_size, List.length_flatten]

/-! ## Step (one-iteration) lemmas for the fuel loops -/

theorem store_writev_loop_step (store : Store) (wfail : Nat → Bool)
    (secpos S len : Nat) (frame : List Nat) (fuel : Nat) (mem : Mem) (loc : Nat) :
    store_writev_loop store wfail secpos S len frame (fuel + 1) mem loc =
      if wfail (secpos + loc) = false then
        (0, writeBytes mem (secpos + loc) frame,
          loc + SAS_ALIGNUP len store.area.write_size)
      else if S < loc + store.area.write_size then
        (-28, mem, loc + store.area.write_size)
      else
        store_writev_loop store wfail secpos S len frame fuel mem
          (loc + store.area.write_size) := rfl

theorem scan_loop_step (store : Store) (d : StoreData) (mem : Mem) (sector : Nat)
    (wrapcheck recover : Bool) (fuel loc size : Nat) (crc_ok : Bool) :
    scan_loop store d mem sector wrapcheck recover (fuel + 1) loc size crc_ok =
      (if (d.sector = sector ∧ d.loc ≤ scan_rdpos store loc size) ∨
          scan_rdpos store loc size = store.sector_size then
        (-2, ⟨sector, scan_rdpos store loc size, 0⟩)
      else if scan_magic_ok store mem sector (scan_rdpos store loc size) &&
          scan_wrap_ok store d mem sector (scan_rdpos store loc size) wrapcheck &&
          scan_size_ok store mem sector (scan_rdpos store loc size) &&
          (if scan_size_ok store mem sector (scan_rdpos store loc size) && !crc_ok then
            store_record_valid store mem ⟨sector, scan_rdpos store loc size,
              scan_rsize store mem sector (scan_rdpos store loc size)⟩
          else crc_ok) then
        (0, ⟨sector, scan_rdpos store loc size,
          scan_rsize store mem sector (scan_rdpos store loc size)⟩)
      else if recover = false then
        (-2, ⟨sector,
          (if scan_size_ok store mem sector (scan_rdpos store loc size) && !crc_ok then
            scan_rdpos store loc size else loc),
          (if scan_size_ok store mem sector (scan_rdpos store loc size) && !crc_ok then
            scan_rsize store mem sector (scan_rdpos store loc size) else size)⟩)
      else
        scan_loop store d mem sector wrapcheck recover fuel
          ((if scan_size_ok store mem sector (scan_rdpos store loc size) && !crc_ok then
            scan_rdpos store loc size else loc) + store.area.write_size) 0 false) := rfl

theorem record_next_loop_step (store : Store) (d : StoreData) (mem : Mem)
    (fuel : Nat) (rec : Rec) :
    record_next_loop store d mem (fuel + 1) rec =
      (let r := store_record_next_in_sector store d mem rec true true
       if r.1 ≠ -2 then r
       else if r.2.sector = d.sector then r
       else record_next_loop store d mem fuel ⟨sector_advance store r.2.sector 1, 0, 0⟩) := rfl

theorem update_loop_step (store : Store) (wfail : Nat → Bool) (secpos fuel : Nat)
    (mem : Mem) (data : List Nat) (len rpos apos : Nat) :
    update_loop store wfail secpos (fuel + 1) mem data len rpos apos =
      (if len = 0 then (0, mem)
       else
         let align := store.area.write_size
         let modlen := min len (align - (rpos - apos))
         let buf := readBytes mem (secpos + apos) align
         let buf2 := memcpy_at buf (rpos - apos) (data.take modlen)
         if wfail (secpos + apos) then (-5, mem)
         else
           update_loop store wfail secpos fuel (writeBytes mem (secpos + apos) buf2)
             data (len - modlen) (rpos + modlen) (apos + align)) := rfl

/-! ## C10 -/

/-- C10: for every structurally valid store, `storage_area_store_unmount`
returns success (also when the store is already unmounted), its only effect
is clearing the ready flag (sector, loc and wrapcnt are unchanged), and it
is idempotent. -/
theorem C10_unmount_success_idempotent (store : Store) (d : StoreData) :
    storage_area_store_unmount store d = (0, { d with ready := false }) ∧
    storage_area_store_unmount store { d with ready := false } =
      (0, { d with ready := false }) := by
  simp [storage_area_store_unmount, store_valid]

/-! ## C8 -/

/-- C8: when the store of a record handle is structurally well formed but
not mounted, `storage_area_record_valid` returns true for every medium
content (so no read or CRC check can influence the result), because the C
code converts the `-EINVAL` return value to the boolean true. -/
theorem C8_record_valid_unmounted (store : Store) (d : StoreData) (rec : Rec)
    (h : d.ready = false) :
    ∀ mem : Mem, storage_area_record_valid store d mem rec = true := by
  intro mem
  simp [storage_area_record_valid, store_ready, store_valid, h, int_as_bool]

theorem C8_record_valid_unmounted_witness :
    storage_area_record_valid ⟨⟨4, 8, 4, 4⟩, ApiKind.scb, none, 0, 16, 2, 0, 0⟩
      ⟨false, 0, 0, 0⟩ (fun _ => 0) ⟨0, 0, 0⟩ = true :=
  C8_record_valid_unmounted _ _ _ rfl (fun _ => 0)

/-! ## C5 -/

/-- C5 (amended): `writev`, `advance` and `compact` return `-EINVAL` and
change no state when the store is not mounted, and `wipe` returns `-EINVAL`
when the store is mounted.  (The cursor `next` and the record operations
only require a structurally valid store and do run unmounted; see the
counterexample.) -/
theorem C5_mount_guards (store : Store) (wfail : Nat → Bool) (mem : Mem)
    (d : StoreData) (iovec : List (List Nat)) (cb : Option (Rec → Bool))
    (hapi : store.api ≠ ApiKind.ro) :
    (d.ready = false → storage_area_store_writev store wfail mem d iovec = (-22, mem, d)) ∧
    (d.ready = false → storage_area_store_advance store wfail mem d = (-22, mem, d)) ∧
    (d.ready = false → storage_area_store_compact store wfail mem d cb = (-22, mem, d)) ∧
    (d.ready = true → storage_area_store_wipe store mem d = (-22, mem)) := by
  refine ⟨fun h => ?_, fun h => ?_, fun h => ?_, fun h => ?_⟩ <;>
    simp [storage_area_store_writev, storage_area_store_advance,
      storage_area_store_compact, storage_area_store_wipe, store_ready, store_valid,
      h, hapi]

theorem C5_mount_guards_witness :
    storage_area_store_writev ⟨⟨4, 8, 4, 4⟩, ApiKind.scb, none, 0, 16, 2, 0, 0⟩
        (fun _ => false) (fun _ => 0) ⟨false, 0, 0, 0⟩ [] =
      (-22, (fun _ => 0), ⟨false, 0, 0, 0⟩) ∧
    storage_area_store_advance ⟨⟨4, 8, 4, 4⟩, ApiKind.scb, none, 0, 16, 2, 0, 0⟩
        (fun _ => false) (fun _ => 0) ⟨false, 0, 0, 0⟩ =
      (-22, (fun _ => 0), ⟨false, 0, 0, 0⟩) ∧
    storage_area_store_compact ⟨⟨4, 8, 4, 4⟩, ApiKind.scb, none, 0, 16, 2, 0, 0⟩
        (fun _ => false) (fun _ => 0) ⟨false, 0, 0, 0⟩ none =
      (-22, (fun _ => 0), ⟨false, 0, 0, 0⟩) ∧
    storage_area_store_wipe ⟨⟨4, 8, 4, 4⟩, ApiKind.scb, none, 0, 16, 2, 0, 0⟩
        (fun _ => 0) ⟨true, 0, 0, 0⟩ = (-22, (fun _ => 0)) := by
  refine ⟨(C5_mount_guards ⟨⟨4, 8, 4, 4⟩, ApiKind.scb, none, 0, 16, 2, 0, 0⟩
      (fun _ => false) (fun _ => 0) ⟨false, 0, 0, 0⟩ [] none (by decide)).1 rfl,
    (C5_mount_guards ⟨⟨4, 8, 4, 4⟩, ApiKind.scb, none, 0, 16, 2, 0, 0⟩
      (fun _ => false) (fun _ => 0) ⟨false, 0, 0, 0⟩ [] none (by decide)).2.1 rfl,
    (C5_mount_guards ⟨⟨4, 8, 4, 4⟩, ApiKind.scb, none, 0, 16, 2, 0, 0⟩
      (fun _ => false) (fun _ => 0) ⟨false, 0, 0, 0⟩ [] none (by decide)).2.2.1 rfl,
    (C5_mount_guards ⟨⟨4, 8, 4, 4⟩, ApiKind.scb, none, 0, 16, 2, 0, 0⟩
      (fun _ => false) (fun _ => 0) ⟨true, 0, 0, 0⟩ [] none (by decide)).2.2.2 rfl⟩

/-- C5 counterexample: the claim also requires `next` to return an error on
an unmounted store, but `storage_area_record_next` only checks structural
validity; on this concrete unmounted store it returns success (0) and a
record. -/
theorem C5_counterexample_next_unmounted :
    storage_area_record_next ⟨⟨4, 8, 4, 4⟩, ApiKind.scb, none, 0, 16, 2, 0, 0⟩
      ⟨false, 0, 16, 1⟩
      (fun a => if a = 0 then 240 else if a = 1 then 1 else if a = 2 then 4 else 0)
      none = (0, ⟨0, 0, 4⟩) := by decide

/-! ## C2 -/

/-- C2 (amended): with no medium errors, `writev` on a mounted store returns
`-ENOSPC` without writing anything if and only if `σ - ℓ < 8 + P`
(the unaligned frame length `SAS_HDRSIZE + P + SAS_CRCSIZE`); the C
pre-check does not align the frame length up to the write block size. -/
theorem C2_writev_nospace_iff (store : Store) (wfail : Nat → Bool) (mem : Mem)
    (d : StoreData) (iovec : List (List Nat))
    (hapi : store.api ≠ ApiKind.ro) (hready : d.ready = true)
    (hnf : ∀ o, wfail o = false)
    (hsz : store.sector_size < 2 ^ 64)
    (hlen : SAS_HDRSIZE + store_iovec_size iovec + SAS_CRCSIZE ≤ store.sector_size) :
    storage_area_store_writev store wfail mem d iovec = (-28, mem, d) ↔
      store.sector_size - d.loc <
        SAS_HDRSIZE + store_iovec_size iovec + SAS_CRCSIZE := by
  have hready2 : ¬(store_ready store d = false) := by
    simp [store_ready, store_valid, hready]
  rw [storage_area_store_writev, if_neg hapi, if_neg hready2]
  simp only [store_writev, show SAS_HDRSIZE = 4 from rfl,
    show SAS_CRCSIZE = 4 from rfl] at hlen ⊢
  rw [size_t_sub_eq store.sector_size (4 + store_iovec_size iovec + 4) hlen hsz]
  constructor
  · intro h
    by_contra hc
    rw [if_neg (by omega)] at h
    rw [store_writev_loop_step, if_pos (hnf _)] at h
    simpa using congrArg Prod.fst h
  · intro h
    rw [if_pos (by omega)]

theorem C2_writev_nospace_iff_witness :
    store_iovec_size [[7, 7, 7, 7]] = 4 ∧
    storage_area_store_writev ⟨⟨8, 32, 4, 4⟩, ApiKind.scb, none, 0, 32, 2, 0, 0⟩
        (fun _ => false) (fun _ => 0) ⟨true, 0, 24, 1⟩ [[7, 7, 7, 7]] =
      (-28, (fun _ => 0), ⟨true, 0, 24, 1⟩) := by
  refine ⟨by decide, ?_⟩
  exact (C2_writev_nospace_iff _ _ _ _ _ (by decide) rfl (fun _ => rfl) (by decide)
    (by decide)).mpr (by decide)

/-! ## C4 -/

theorem writev_loop_success (store : Store) (wfail : Nat → Bool)
    (secpos S len : Nat) (frame : List Nat) (hW : 0 < store.area.write_size) :
    ∀ (k fuel : Nat) (mem : Mem) (loc : Nat),
      (∀ j, j < k → wfail (secpos + (loc + j * store.area.write_size)) = true) →
      wfail (secpos + (loc + k * store.area.write_size)) = false →
      loc + k * store.area.write_size ≤ S → k < fuel →
      store_writev_loop store wfail secpos S len frame fuel mem loc =
        (0, writeBytes mem (secpos + (loc + k * store.area.write_size)) frame,
          loc + k * store.area.write_size +
            SAS_ALIGNUP len store.area.write_size) := by
  intro k
  induction k with
  | zero =>
    intro fuel mem loc hfail hsucc hbound hfuel
    match fuel, hfuel with
    | f + 1, _ =>
      rw [store_writev_loop_step, if_pos (by simpa using hsucc)]
      simp
  | succ k ih =>
    intro fuel mem loc hfail hsucc hbound hfuel
    match fuel, hfuel with
    | f + 1, hf =>
      have hW2 : store.area.write_size ≤ (k + 1) * store.area.write_size := by
        have := Nat.le_mul_of_pos_left store.area.write_size (show 0 < k + 1 by omega)
        omega
      have h0 : wfail (secpos + loc) = true := by simpa using hfail 0 (by omega)
      rw [store_writev_loop_step, if_neg (by simp [h0]), if_neg (by omega)]
      have hrw : ∀ j : Nat, loc + store.area.write_size + j * store.area.write_size =
          loc + (j + 1) * store.area.write_size := by
        intro j; ring
      have := ih f mem (loc + store.area.write_size)
        (fun j hj => by rw [hrw j]; exact hfail (j + 1) (by omega))
        (by rw [hrw k]; exact hsucc)
        (by rw [hrw k]; exact hbound)
        (by omega)
      rw [this, hrw k]

theorem writev_loop_allfail (store : Store) (wfail : Nat → Bool)
    (secpos S len : Nat) (frame : List Nat) (hW : 0 < store.area.write_size) :
    ∀ (fuel : Nat) (mem : Mem) (loc : Nat),
      (∀ j : Nat, wfail (secpos + (loc + j * store.area.write_size)) = true) →
      loc ≤ S → S < loc + fuel * store.area.write_size →
      (store_writev_loop store wfail secpos S len frame fuel mem loc).1 = -28 ∧
      (store_writev_loop store wfail secpos S len frame fuel mem loc).2.1 = mem := by
  intro fuel
  induction fuel with
  | zero =>
    intro mem loc hfail hle hlt
    omega
  | succ f ih =>
    intro mem loc hfail hle hlt
    have h0 : wfail (secpos + loc) = true := by simpa using hfail 0
    rw [store_writev_loop_step, if_neg (by simp [h0])]
    by_cases hc : S < loc + store.area.write_size
    · rw [if_pos hc]
      exact ⟨rfl, rfl⟩
    · rw [if_neg hc]
      have hrw : ∀ j : Nat, loc + store.area.write_size + j * store.area.write_size =
          loc + (j + 1) * store.area.write_size := by
        intro j; ring
      apply ih mem (loc + store.area.write_size)
        (fun j => by rw [hrw j]; exact hfail (j + 1)) (by omega)
      have : (f + 1) * store.area.write_size =
          f * store.area.write_size + store.area.write_size := by ring
      omega

/-- C4: if the underlying write of a frame fails, `writev` advances the
write offset by exactly W and retries the whole frame at the next write
block; it returns success as soon as one attempt succeeds (writing the full
frame at the shifted offset and advancing `loc` past it), and returns
`-ENOSPC` with the medium unchanged when every attempt fails until the
remaining sector space can no longer hold the frame. -/
theorem C4_writev_retry (store : Store) (wfail : Nat → Bool) (mem : Mem)
    (d : StoreData) (iovec : List (List Nat)) (k : Nat)
    (hW : 0 < store.area.write_size)
    (hsz : store.sector_size < 2 ^ 64)
    (hlen : SAS_HDRSIZE + store_iovec_size iovec + SAS_CRCSIZE ≤ store.sector_size) :
    let len := SAS_HDRSIZE + store_iovec_size iovec + SAS_CRCSIZE
    let secpos := d.sector * store.sector_size
    let hbuf := [SAS_MAGIC, d.wrapcnt] ++ sys_put_le16 (store_iovec_size iovec)
    let cbuf := sys_put_le32 (writev_crc SAS_CRCINIT store.crc_skip iovec) ++
      List.replicate (SAS_ALIGNUP len store.area.write_size - len) SAS_FILLVALUE
    let frame := hbuf ++ iovec.flatten ++ cbuf
    ((∀ j, j < k → wfail (secpos + (d.loc + j * store.area.write_size)) = true) →
      wfail (secpos + (d.loc + k * store.area.write_size)) = false →
      d.loc + k * store.area.write_size ≤ store.sector_size - len →
      store_writev store wfail mem d iovec =
        (0, writeBytes mem (secpos + (d.loc + k * store.area.write_size)) frame,
          { d with loc := d.loc + k * store.area.write_size +
              SAS_ALIGNUP len store.area.write_size })) ∧
    ((∀ j : Nat, wfail (secpos + (d.loc + j * store.area.write_size)) = true) →
      d.loc ≤ store.sector_size - len →
      (store_writev store wfail mem d iovec).1 = -28 ∧
      (store_writev store wfail mem d iovec).2.1 = mem) := by
  intro len secpos hbuf cbuf frame
  constructor
  · intro hfail hsucc hbound
    simp only [store_writev]
    rw [size_t_sub_eq _ _ hlen hsz]
    rw [if_neg (by omega)]
    rw [writev_loop_success store wfail secpos (store.sector_size - len) len frame hW
      k (store.sector_size - len + 1 + 1) mem d.loc hfail hsucc hbound
      (by
        have hk : k ≤ k * store.area.write_size := Nat.le_mul_of_pos_right k hW
        omega)]
  · intro hfail hbound
    simp only [store_writev]
    rw [size_t_sub_eq _ _ hlen hsz]
    rw [if_neg (by omega)]
    have hs2 : store.sector_size - len + 1 + 1 ≤
        (store.sector_size - len + 1 + 1) * store.area.write_size :=
      Nat.le_mul_of_pos_right _ hW
    exact writev_loop_allfail store wfail secpos (store.sector_size - len) len frame hW
      (store.sector_size - len + 1 + 1) mem d.loc hfail hbound (by omega)

theorem C4_writev_retry_witness :
    (store_writev ⟨⟨4, 16, 4, 4⟩, ApiKind.scb, none, 0, 32, 2, 0, 0⟩
        (fun o => decide (o < 4)) (fun _ => 0) ⟨true, 0, 0, 1⟩ [[9, 9, 9, 9]]).1 = 0 ∧
    (store_writev ⟨⟨4, 16, 4, 4⟩, ApiKind.scb, none, 0, 32, 2, 0, 0⟩
        (fun _ => true) (fun _ => 0) ⟨true, 0, 0, 1⟩ [[9, 9, 9, 9]]).1 = -28 := by
  constructor
  · have h := (C4_writev_retry ⟨⟨4, 16, 4, 4⟩, ApiKind.scb, none, 0, 32, 2, 0, 0⟩
      (fun o => decide (o < 4)) (fun _ => 0) ⟨true, 0, 0, 1⟩ [[9, 9, 9, 9]] 1
      (by decide) (by decide) (by decide)).1 (by decide) (by decide) (by decide)
    rw [h]
  · exact ((C4_writev_retry ⟨⟨4, 16, 4, 4⟩, ApiKind.scb, none, 0, 32, 2, 0, 0⟩
      (fun _ => true) (fun _ => 0) ⟨true, 0, 0, 1⟩ [[9, 9, 9, 9]] 0
      (by decide) (by decide) (by decide)).2 (fun j => rfl) (by decide)).1

/-! ## C3 -/

theorem scan_rdpos_ge (store : Store) (loc size : Nat) (hW : 0 < store.area.write_size) :
    loc ≤ scan_rdpos store loc size := by
  unfold scan_rdpos
  split
  · have := alignup_ge store.area.write_size
      (loc + (SAS_HDRSIZE + size + SAS_CRCSIZE)) hW
    omega
  · exact Nat.le_refl loc

theorem scan_loop_zero (store : Store) (d : StoreData) (mem : Mem) (sector : Nat)
    (wrapcheck recover : Bool) (loc size : Nat) (crc_ok : Bool) :
    scan_loop store d mem sector wrapcheck recover 0 loc size crc_ok =
      (-1000, ⟨sector, loc, size⟩) := rfl

theorem scan_loop_loc_mono (store : Store) (d : StoreData) (mem : Mem)
    (sector : Nat) (wrapcheck recover : Bool) (hW : 0 < store.area.write_size) :
    ∀ (fuel loc size : Nat) (crc_ok : Bool) (r : Rec),
      scan_loop store d mem sector wrapcheck recover fuel loc size crc_ok = (0, r) →
      loc ≤ r.loc := by
  intro fuel
  induction fuel with
  | zero =>
    intro loc size crc_ok r h
    rw [scan_loop_zero] at h
    injection h with h1 h2
    exact absurd h1 (by decide)
  | succ f ih =>
    intro loc size crc_ok r h
    rw [scan_loop_step] at h
    have hrd : loc ≤ scan_rdpos store loc size := scan_rdpos_ge store loc size hW
    by_cases hexit : (d.sector = sector ∧ d.loc ≤ scan_rdpos store loc size) ∨
        scan_rdpos store loc size = store.sector_size
    · rw [if_pos hexit] at h
      injection h with h1 h2
      exact absurd h1 (by decide)
    · rw [if_neg hexit] at h
      by_cases hacc : (scan_magic_ok store mem sector (scan_rdpos store loc size) &&
          scan_wrap_ok store d mem sector (scan_rdpos store loc size) wrapcheck &&
          scan_size_ok store mem sector (scan_rdpos store loc size) &&
          (if scan_size_ok store mem sector (scan_rdpos store loc size) && !crc_ok then
            store_record_valid store mem ⟨sector, scan_rdpos store loc size,
              scan_rsize store mem sector (scan_rdpos store loc size)⟩
          else crc_ok)) = true
      · rw [if_pos hacc] at h
        injection h with h1 h2
        rw [← h2]
        exact hrd
      · rw [if_neg hacc] at h
        by_cases hrec : recover = false
        · rw [if_pos hrec] at h
          injection h with h1 h2
          exact absurd h1 (by decide)
        · rw [if_neg hrec] at h
          have h3 := ih _ _ _ _ h
          revert h3
          split
          · intro h3; omega
          · intro h3; omega

theorem scan_rdpos_zero (store : Store) (loc : Nat) : scan_rdpos store loc 0 = loc := by
  simp [scan_rdpos]

/-- C3 (amended): a candidate frame that the in-sector scan reaches
directly (without having stepped over an invalid frame first, so the
local `crc_ok` flag is still true) is accepted if and only if its magic
byte is 0xF0, its (adjusted) wrapcnt byte equals the current wrap counter,
and its size P satisfies `0 < P < σ − offset − 8` — the code's bound is
`σ − offset − SAS_CRCSIZE − SAS_HDRSIZE`, not `σ − offset − 8 − 4`, and no
CRC check is performed for such candidates; the CRC is consulted only for
candidates reached after a recovery skip. -/
theorem C3_scan_direct_accept_iff (store : Store) (d : StoreData) (mem : Mem)
    (v loc0 : Nat)
    (hW : 0 < store.area.write_size)
    (hcook : store.sector_cookie = none)
    (hexit : ¬((d.sector = v ∧ d.loc ≤ loc0) ∨ loc0 = store.sector_size)) :
    store_record_next_in_sector store d mem ⟨v, loc0, 0⟩ true true =
        (0, ⟨v, loc0, scan_rsize store mem v loc0⟩) ↔
      (scan_magic_ok store mem v loc0 && scan_wrap_ok store d mem v loc0 true &&
        scan_size_ok store mem v loc0) = true := by
  have hstep : store_record_next_in_sector store d mem ⟨v, loc0, 0⟩ true true =
      scan_loop store d mem v true true (store.sector_size + 1 + 1) loc0 0 true := by
    simp [store_record_next_in_sector, hcook]
  rw [hstep, scan_loop_step, scan_rdpos_zero, if_neg hexit]
  simp only [Bool.not_true, Bool.and_false, Bool.false_eq_true, Bool.true_eq_false,
    if_false, Bool.and_true]
  constructor
  · intro h
    by_contra hacc
    rw [if_neg hacc] at h
    have h2 : loc0 + store.area.write_size ≤ loc0 :=
      scan_loop_loc_mono store d mem v true true hW _ _ _ _ _ h
    omega
  · intro hacc
    rw [if_pos hacc]

set_option maxRecDepth 4000 in
theorem C3_scan_direct_accept_iff_witness :
    store_record_next_in_sector ⟨⟨4, 16, 4, 4⟩, ApiKind.scb, none, 0, 16, 2, 0, 0⟩
        ⟨true, 0, 16, 7⟩
        (fun a => [240, 7, 2, 0, 11, 22, 0, 0, 0, 0].getD a 0) ⟨0, 0, 0⟩ true true =
      (0, ⟨0, 0, scan_rsize ⟨⟨4, 16, 4, 4⟩, ApiKind.scb, none, 0, 16, 2, 0, 0⟩
        (fun a => [240, 7, 2, 0, 11, 22, 0, 0, 0, 0].getD a 0) 0 0⟩) :=
  (C3_scan_direct_accept_iff ⟨⟨4, 16, 4, 4⟩, ApiKind.scb, none, 0, 16, 2, 0, 0⟩
    ⟨true, 0, 16, 7⟩ (fun a => [240, 7, 2, 0, 11, 22, 0, 0, 0, 0].getD a 0) 0 0
    (by decide) rfl (by decide)).mpr (by decide)

set_option maxRecDepth 100000 in
/-- C3 counterexample: this frame has magic 0xF0, matching wrapcnt, and
size P = 5, which violates the claim's bound `P < σ − offset − 8 − 4 = 4`
and has a CRC that does not match (`store_record_valid` is false), yet the
scan accepts it — refuting the claim's "valid iff ... P < σ−offset−8−4 and
CRC matches". -/
theorem C3_counterexample :
    store_record_next_in_sector ⟨⟨4, 16, 4, 4⟩, ApiKind.scb, none, 0, 16, 2, 0, 0⟩
        ⟨true, 0, 16, 7⟩
        (fun a => [240, 7, 5, 0, 1, 2, 3, 4, 5, 0, 0, 0, 0].getD a 0) ⟨0, 0, 0⟩
        true true = (0, ⟨0, 0, 5⟩) ∧
    store_record_valid ⟨⟨4, 16, 4, 4⟩, ApiKind.scb, none, 0, 16, 2, 0, 0⟩
        (fun a => [240, 7, 5, 0, 1, 2, 3, 4, 5, 0, 0, 0, 0].getD a 0) ⟨0, 0, 5⟩ = false ∧
    ¬(5 < 16 - 0 - 8 - 4) := by decide

/-- C2 counterexample: the claim demands `-ENOSPC` exactly when
`σ - ℓ < align_up(8 + P + 4, W)`; here `σ - ℓ = 16 < 24 = align_up(20, 8)`
yet the code accepts the append and returns 0, because its pre-check uses
the unaligned length `8 + P = 16`. -/
theorem C2_counterexample :
    (storage_area_store_writev ⟨⟨8, 32, 4, 4⟩, ApiKind.scb, none, 0, 32, 2, 0, 0⟩
        (fun _ => false) (fun _ => 0) ⟨true, 0, 16, 1⟩
        [[0, 0, 0, 0, 0, 0, 0, 0]]).1 = 0 ∧
    (32 : Nat) - 16 < SAS_ALIGNUP (8 + 8 + 4) 8 := by decide

/-! ## C6 -/

theorem getD_take (l : List Nat) (n i : Nat) (h : i < n) :
    (l.take n).getD i 0 = l.getD i 0 := by
  simp [List.getD_eq_getElem?_getD, List.getElem?_take, h]

theorem getD_drop (l : List Nat) (m i : Nat) :
    (l.drop m).getD i 0 = l.getD (m + i) 0 := by
  simp [List.getD_eq_getElem?_getD, List.getElem?_drop]

theorem length_memcpy_at (dst src : List Nat) (off : Nat)
    (h : off + src.length ≤ dst.length) :
    (memcpy_at dst off src).length = dst.length := by
  simp [memcpy_at]
  omega

theorem memcpy_at_getD (dst src : List Nat) (off j : Nat)
    (h : off + src.length ≤ dst.length) :
    (memcpy_at dst off src).getD j 0 =
      if j < off then dst.getD j 0
      else if j < off + src.length then src.getD (j - off) 0
      else dst.getD j 0 := by
  unfold memcpy_at
  have hto : (dst.take off).length = off := List.length_take_of_le (by omega)
  have hts : (dst.take off ++ src).length = off + src.length := by
    rw [List.length_append, hto]
  by_cases h1 : j < off
  · rw [if_pos h1, List.getD_append _ _ _ _ (by omega),
      List.getD_append _ _ _ _ (by omega), getD_take _ _ _ h1]
  · rw [if_neg h1]
    by_cases h2 : j < off + src.length
    · rw [if_pos h2, List.getD_append _ _ _ _ (by omega),
        List.getD_append_right _ _ _ _ (by omega), hto]
    · rw [if_neg h2, List.getD_append_right _ _ _ _ (by omega), hts, getD_drop]
      congr 1
      omega

theorem store_record_valid_congr (store : Store) (m1 m2 : Mem) (rec : Rec)
    (h : ∀ a, rec.sector * store.sector_size + rec.loc + SAS_HDRSIZE + store.crc_skip ≤ a →
      m1 a = m2 a) :
    store_record_valid store m1 rec = store_record_valid store m2 rec := by
  have h1 : readBytes m1
      (rec.sector * store.sector_size + rec.loc + SAS_HDRSIZE + store.crc_skip)
      (size_t_sub rec.size store.crc_skip) =
    readBytes m2
      (rec.sector * store.sector_size + rec.loc + SAS_HDRSIZE + store.crc_skip)
      (size_t_sub rec.size store.crc_skip) :=
    readBytes_congr _ _ _ _ (fun i _ => h _ (by omega))
  have h2 : readBytes m1
      (rec.sector * store.sector_size + rec.loc + SAS_HDRSIZE + store.crc_skip +
        size_t_sub rec.size store.crc_skip) SAS_CRCSIZE =
    readBytes m2
      (rec.sector * store.sector_size + rec.loc + SAS_HDRSIZE + store.crc_skip +
        size_t_sub rec.size store.crc_skip) SAS_CRCSIZE :=
    readBytes_congr _ _ _ _ (fun i _ => h _ (by omega))
  simp only [store_record_valid, h1, h2]

theorem update_loop_frame (store : Store) (wfail : Nat → Bool) (secpos : Nat)
    (hW : 0 < store.area.write_size) (hnf : ∀ o, wfail o = false) :
    ∀ (fuel : Nat) (mem : Mem) (data : List Nat) (len rpos apos : Nat),
      len < fuel →
      (len ≠ 0 → apos ≤ rpos ∧ rpos < apos + store.area.write_size) →
      (update_loop store wfail secpos fuel mem data len rpos apos).1 = 0 ∧
      ∀ a, (a < secpos + rpos ∨ secpos + rpos + len ≤ a) →
        (update_loop store wfail secpos fuel mem data len rpos apos).2 a = mem a := by
  intro fuel
  induction fuel with
  | zero =>
    intro mem data len rpos apos hfuel hinv
    omega
  | succ f ih =>
    intro mem data len rpos apos hfuel hinv
    rw [update_loop_step]
    by_cases hl : len = 0
    · rw [if_pos hl]
      exact ⟨rfl, fun a _ => rfl⟩
    · rw [if_neg hl, if_neg (by simp [hnf])]
      obtain ⟨har, hra⟩ := hinv hl
      set align := store.area.write_size with halign
      set modlen := min len (align - (rpos - apos)) with hmodlen
      have hm1 : 1 ≤ modlen := by
        rw [hmodlen]
        omega
      have hmle : modlen ≤ len := by rw [hmodlen]; omega
      have hmal : (rpos - apos) + modlen ≤ align := by rw [hmodlen]; omega
      have htk : (data.take modlen).length ≤ modlen := by
        rw [List.length_take]
        omega
      have hbuflen : (readBytes mem (secpos + apos) align).length = align :=
        length_readBytes _ _ _
      have hb2len : (memcpy_at (readBytes mem (secpos + apos) align) (rpos - apos)
          (data.take modlen)).length = align := by
        rw [length_memcpy_at _ _ _ (by rw [hbuflen]; omega)]
        exact hbuflen
      have hmem2 : ∀ a, (a < secpos + rpos ∨ secpos + rpos + modlen ≤ a) →
          writeBytes mem (secpos + apos)
            (memcpy_at (readBytes mem (secpos + apos) align) (rpos - apos)
              (data.take modlen)) a = mem a := by
        intro a ha
        rw [writeBytes_apply, hb2len]
        by_cases hin : secpos + apos ≤ a ∧ a < secpos + apos + align
        · rw [if_pos hin]
          rw [memcpy_at_getD _ _ _ _ (by rw [hbuflen]; omega)]
          by_cases hj1 : a - (secpos + apos) < rpos - apos
          · rw [if_pos hj1, readBytes_getD _ _ _ _ (by omega)]
            congr 1
            omega
          · rw [if_neg hj1, if_neg (by omega), readBytes_getD _ _ _ _ (by omega)]
            congr 1
            omega
        · rw [if_neg hin]
      have hrec := ih (writeBytes mem (secpos + apos)
          (memcpy_at (readBytes mem (secpos + apos) align) (rpos - apos)
            (data.take modlen)))
        data (len - modlen) (rpos + modlen) (apos + align)
        (by omega)
        (by
          intro hl2
          have hmeq : modlen = align - (rpos - apos) := by
            rw [hmodlen]
            omega
          constructor <;> omega)
      refine ⟨hrec.1, fun a ha => ?_⟩
      rw [hrec.2 a (by omega)]
      exact hmem2 a (by omega)

/-- C6: on overwrite-capable media, `update(r, new_head)` with
`len(new_head) ≤ crc_skip` on a mounted store and a CRC-valid record
succeeds, leaves every medium byte outside the payload head
`[loc+4, loc+4+len)` unchanged — in particular every payload byte at
offset ≥ crc_skip and the rest of the frame — and leaves the record
CRC-valid; update is refused with `-ENOTSUP` when neither FULL_OVERWRITE
nor LIMITED_OVERWRITE is set and with `-EINVAL` when `len > crc_skip`.
(The C never advances the source pointer `data8` between write blocks, so
an update spanning several blocks repeats the head bytes of `new_head`
instead of writing consecutive slices; the loop still touches only the
head region, which is all this claim asserts.) -/
theorem C6_update (store : Store) (wfail : Nat → Bool) (d : StoreData) (mem : Mem)
    (rec : Rec) (data : List Nat) :
    ((STORAGE_AREA_FOVRWRITE store.area = false ∧
        STORAGE_AREA_LOVRWRITE store.area = false) →
      storage_area_record_update store wfail d mem rec data = (-134, mem)) ∧
    ((STORAGE_AREA_FOVRWRITE store.area = true ∨
        STORAGE_AREA_LOVRWRITE store.area = true) →
      storage_area_record_valid store d mem rec = true →
      store.crc_skip < data.length →
      storage_area_record_update store wfail d mem rec data = (-22, mem)) ∧
    ((STORAGE_AREA_FOVRWRITE store.area = true ∨
        STORAGE_AREA_LOVRWRITE store.area = true) →
      0 < store.area.write_size → (∀ o, wfail o = false) →
      d.ready = true → store_record_valid store mem rec = true →
      data.length ≤ store.crc_skip →
      (storage_area_record_update store wfail d mem rec data).1 = 0 ∧
      (∀ a, (a < rec.sector * store.sector_size + rec.loc + SAS_HDRSIZE ∨
          rec.sector * store.sector_size + rec.loc + SAS_HDRSIZE + data.length ≤ a) →
        (storage_area_record_update store wfail d mem rec data).2 a = mem a) ∧
      storage_area_record_valid store d
        (storage_area_record_update store wfail d mem rec data).2 rec = true) := by
  refine ⟨?_, ?_, ?_⟩
  · intro hno
    unfold storage_area_record_update
    rw [if_pos hno]
  · intro hov hvalid hlt
    unfold storage_area_record_update
    rw [if_neg (by rcases hov with h | h <;> simp [h])]
    rw [if_pos (Or.inr hlt)]
  · intro hov hW hnf hready hvalid hlen
    have hpv : storage_area_record_valid store d mem rec = true := by
      simp [storage_area_record_valid, store_ready, store_valid, hready, hvalid]
    have hred : storage_area_record_update store wfail d mem rec data =
        update_loop store wfail (rec.sector * store.sector_size) (data.length + 1)
          mem data data.length (rec.loc + SAS_HDRSIZE)
          (SAS_ALIGNDOWN (rec.loc + SAS_HDRSIZE) store.area.write_size) := by
      unfold storage_area_record_update
      rw [if_neg (by rcases hov with h | h <;> simp [h])]
      rw [if_neg (by simp [hpv]; omega)]
    have hmod := Nat.mod_lt (rec.loc + SAS_HDRSIZE) hW
    have happ := update_loop_frame store wfail (rec.sector * store.sector_size) hW hnf
      (data.length + 1) mem data data.length (rec.loc + SAS_HDRSIZE)
      (SAS_ALIGNDOWN (rec.loc + SAS_HDRSIZE) store.area.write_size)
      (by omega)
      (by
        intro _
        unfold SAS_ALIGNDOWN
        omega)
    rw [hred]
    refine ⟨happ.1, fun a ha => happ.2 a (by omega), ?_⟩
    simp only [storage_area_record_valid, store_ready, store_valid, hready,
      Bool.and_true, Bool.true_eq_false, if_false]
    rw [store_record_valid_congr store _ mem rec
      (fun a ha => happ.2 a (by omega))]
    exact hvalid

theorem C6_update_witness :
    (storage_area_record_update ⟨⟨1, 16, 4, 2⟩, ApiKind.scb, none, 0, 16, 2, 0, 3⟩
        (fun _ => false) ⟨true, 0, 16, 1⟩
        (fun a => [240, 1, 3, 0, 5, 6, 7, 0, 0, 0, 0].getD a 0) ⟨0, 0, 3⟩ [1, 2]).1 = 0 ∧
    storage_area_record_valid ⟨⟨1, 16, 4, 2⟩, ApiKind.scb, none, 0, 16, 2, 0, 3⟩
        ⟨true, 0, 16, 1⟩
        (storage_area_record_update ⟨⟨1, 16, 4, 2⟩, ApiKind.scb, none, 0, 16, 2, 0, 3⟩
          (fun _ => false) ⟨true, 0, 16, 1⟩
          (fun a => [240, 1, 3, 0, 5, 6, 7, 0, 0, 0, 0].getD a 0) ⟨0, 0, 3⟩ [1, 2]).2
        ⟨0, 0, 3⟩ = true ∧
    storage_area_record_update ⟨⟨1, 16, 4, 0⟩, ApiKind.scb, none, 0, 16, 2, 0, 3⟩
        (fun _ => false) ⟨true, 0, 16, 1⟩
        (fun a => [240, 1, 3, 0, 5, 6, 7, 0, 0, 0, 0].getD a 0) ⟨0, 0, 3⟩ [1, 2] =
      (-134, (fun a => [240, 1, 3, 0, 5, 6, 7, 0, 0, 0, 0].getD a 0)) ∧
    storage_area_record_update ⟨⟨1, 16, 4, 2⟩, ApiKind.scb, none, 0, 16, 2, 0, 3⟩
        (fun _ => false) ⟨true, 0, 16, 1⟩
        (fun a => [240, 1, 3, 0, 5, 6, 7, 0, 0, 0, 0].getD a 0) ⟨0, 0, 3⟩ [1, 2, 3, 4] =
      (-22, (fun a => [240, 1, 3, 0, 5, 6, 7, 0, 0, 0, 0].getD a 0)) := by
  refine ⟨((C6_update ⟨⟨1, 16, 4, 2⟩, ApiKind.scb, none, 0, 16, 2, 0, 3⟩
      (fun _ => false) ⟨true, 0, 16, 1⟩
      (fun a => [240, 1, 3, 0, 5, 6, 7, 0, 0, 0, 0].getD a 0) ⟨0, 0, 3⟩ [1, 2]).2.2
      (by decide) (by decide) (fun _ => rfl) rfl (by decide) (by decide)).1,
    ((C6_update ⟨⟨1, 16, 4, 2⟩, ApiKind.scb, none, 0, 16, 2, 0, 3⟩
      (fun _ => false) ⟨true, 0, 16, 1⟩
      (fun a => [240, 1, 3, 0, 5, 6, 7, 0, 0, 0, 0].getD a 0) ⟨0, 0, 3⟩ [1, 2]).2.2
      (by decide) (by decide) (fun _ => rfl) rfl (by decide) (by decide)).2.2,
    (C6_update ⟨⟨1, 16, 4, 0⟩, ApiKind.scb, none, 0, 16, 2, 0, 3⟩
      (fun _ => false) ⟨true, 0, 16, 1⟩
      (fun a => [240, 1, 3, 0, 5, 6, 7, 0, 0, 0, 0].getD a 0) ⟨0, 0, 3⟩ [1, 2]).1
      (by decide),
    (C6_update ⟨⟨1, 16, 4, 2⟩, ApiKind.scb, none, 0, 16, 2, 0, 3⟩
      (fun _ => false) ⟨true, 0, 16, 1⟩
      (fun a => [240, 1, 3, 0, 5, 6, 7, 0, 0, 0, 0].getD a 0) ⟨0, 0, 3⟩ [1, 2, 3, 4]).2.1
      (by decide) (by decide) (by decide)⟩

/-! ## C7 -/

theorem aligndown_dvd (W n : Nat) : W ∣ SAS_ALIGNDOWN n W := by
  unfold SAS_ALIGNDOWN
  have h1 := Nat.div_add_mod n W
  have h : n - n % W = W * (n / W) := by omega
  rw [h]
  exact Dvd.intro _ rfl

theorem sa_flash_write_loop_step (area : StorageArea) (fuel start : Nat)
    (data : List Nat) :
    sa_flash_write_loop area (fuel + 1) start data =
      if data.length = 0 then []
      else (start,
          data.take (min (area.erase_size - start % area.erase_size) data.length)) ::
        sa_flash_write_loop area fuel start
          (data.drop (min (area.erase_size - start % area.erase_size) data.length)) := rfl

theorem sa_flash_write_loop_aligned (area : StorageArea)
    (hE : area.write_size ∣ area.erase_size) :
    ∀ (fuel start : Nat) (data : List Nat),
      area.write_size ∣ start → area.write_size ∣ data.length →
      ∀ p ∈ sa_flash_write_loop area fuel start data,
        area.write_size ∣ p.1 ∧ area.write_size ∣ p.2.length := by
  intro fuel
  induction fuel with
  | zero =>
    intro start data h1 h2 p hp
    simp [sa_flash_write_loop] at hp
  | succ f ih =>
    intro start data h1 h2 p hp
    rw [sa_flash_write_loop_step] at hp
    have hmod : area.write_size ∣ start % area.erase_size :=
      (Nat.dvd_mod_iff hE).mpr h1
    have hwr : area.write_size ∣
        min (area.erase_size - start % area.erase_size) data.length := by
      rcases Nat.le_total (area.erase_size - start % area.erase_size) data.length with
        he | he
      · rw [min_eq_left he]
        exact Nat.dvd_sub' hE hmod
      · rw [min_eq_right he]
        exact h2
    split at hp
    · simp at hp
    · rcases List.mem_cons.mp hp with hph | hpt
      · subst hph
        refine ⟨h1, ?_⟩
        rw [List.length_take_of_le (by omega)]
        exact hwr
      · exact ih start _ h1
          (by rw [List.length_drop]; exact Nat.dvd_sub' h2 hwr) p hpt

theorem sa_flash_write_aligned (area : StorageArea)
    (hE : area.write_size ∣ area.erase_size) (start : Nat) (data : List Nat)
    (h1 : area.write_size ∣ start) (h2 : area.write_size ∣ data.length) :
    ∀ p ∈ sa_flash_write area start data,
      area.write_size ∣ p.1 ∧ area.write_size ∣ p.2.length := by
  intro p hp
  unfold sa_flash_write at hp
  split at hp
  · rcases List.mem_singleton.mp hp with h
    subst h
    exact ⟨h1, h2⟩
  · exact sa_flash_write_loop_aligned area hE _ start data h1 h2 p hp

theorem flash_stage2_inv (area : StorageArea) (hW : 0 < area.write_size)
    (hE : area.write_size ∣ area.erase_size) (st : FlashWvSt) (data : List Nat)
    (hstart : area.write_size ∣ st.start) (hbpos : st.bpos < area.write_size)
    (hbuf : st.bpos = st.buf.length)
    (hlog : ∀ p ∈ st.log, area.write_size ∣ p.1 ∧ area.write_size ∣ p.2.length) :
    area.write_size ∣ (sa_flash_writev_stage2 area st data).start ∧
    (sa_flash_writev_stage2 area st data).bpos < area.write_size ∧
    (sa_flash_writev_stage2 area st data).bpos =
      (sa_flash_writev_stage2 area st data).buf.length ∧
    ∀ p ∈ (sa_flash_writev_stage2 area st data).log,
      area.write_size ∣ p.1 ∧ area.write_size ∣ p.2.length := by
  simp only [sa_flash_writev_stage2]
  have hwd : area.write_size ∣ SAS_ALIGNDOWN data.length area.write_size :=
    aligndown_dvd _ _
  have hwle : SAS_ALIGNDOWN data.length area.write_size ≤ data.length :=
    Nat.sub_le _ _
  have hmod := Nat.mod_lt data.length hW
  by_cases hc : area.write_size ≤ data.length
  · rw [if_pos hc, if_pos hc]
    have hlog2 : ∀ p ∈ st.log ++ sa_flash_write area st.start
        (data.take (SAS_ALIGNDOWN data.length area.write_size)),
        area.write_size ∣ p.1 ∧ area.write_size ∣ p.2.length := by
      intro p hp
      rcases List.mem_append.mp hp with h | h
      · exact hlog p h
      · exact sa_flash_write_aligned area hE _ _ hstart
          (by rw [List.length_take_of_le hwle]; exact hwd) p h
    have hdroplen : (data.drop (SAS_ALIGNDOWN data.length area.write_size)).length =
        data.length % area.write_size := by
      rw [List.length_drop]
      unfold SAS_ALIGNDOWN
      omega
    by_cases h3 : 0 < (data.drop (SAS_ALIGNDOWN data.length area.write_size)).length
    · rw [if_pos h3]
      exact ⟨Nat.dvd_add hstart hwd, by dsimp only; rw [hdroplen]; exact hmod, rfl, hlog2⟩
    · rw [if_neg h3]
      exact ⟨Nat.dvd_add hstart hwd, hbpos, hbuf, hlog2⟩
  · rw [if_neg hc, if_neg hc]
    by_cases h3 : 0 < data.length
    · rw [if_pos h3]
      exact ⟨hstart, by dsimp only; omega, rfl, hlog⟩
    · rw [if_neg h3]
      exact ⟨hstart, hbpos, hbuf, hlog⟩

theorem flash_span_inv (area : StorageArea) (hW : 0 < area.write_size)
    (hE : area.write_size ∣ area.erase_size) (st : FlashWvSt) (span : List Nat)
    (hstart : area.write_size ∣ st.start) (hbpos : st.bpos < area.write_size)
    (hbuf : st.bpos = st.buf.length)
    (hlog : ∀ p ∈ st.log, area.write_size ∣ p.1 ∧ area.write_size ∣ p.2.length) :
    area.write_size ∣ (sa_flash_writev_span area st span).start ∧
    (sa_flash_writev_span area st span).bpos < area.write_size ∧
    (sa_flash_writev_span area st span).bpos =
      (sa_flash_writev_span area st span).buf.length ∧
    ∀ p ∈ (sa_flash_writev_span area st span).log,
      area.write_size ∣ p.1 ∧ area.write_size ∣ p.2.length := by
  simp only [sa_flash_writev_span]
  by_cases h0 : st.bpos = 0
  · rw [if_pos h0]
    exact flash_stage2_inv area hW hE st span hstart hbpos hbuf hlog
  · rw [if_neg h0]
    have hcp : min span.length (area.write_size - st.bpos) ≤ span.length :=
      Nat.min_le_left _ _
    have hbuf2 : (st.buf ++ span.take (min span.length (area.write_size - st.bpos))).length =
        st.bpos + min span.length (area.write_size - st.bpos) := by
      rw [List.length_append, List.length_take_of_le hcp, hbuf]
    have hcp2 : min span.length (area.write_size - st.bpos) ≤
        area.write_size - st.bpos := Nat.min_le_right _ _
    by_cases hfl : st.bpos + min span.length (area.write_size - st.bpos) =
        area.write_size
    · rw [if_pos hfl]
      refine flash_stage2_inv area hW hE
        ⟨st.start + area.write_size, 0, [],
          st.log ++ sa_flash_write area st.start
            (st.buf ++ span.take (min span.length (area.write_size - st.bpos)))⟩
        (span.drop (min span.length (area.write_size - st.bpos)))
        (Nat.dvd_add hstart dvd_rfl) hW rfl ?_
      intro p hp
      rcases List.mem_append.mp hp with h | h
      · exact hlog p h
      · exact sa_flash_write_aligned area hE _ _ hstart
          (by rw [hbuf2, hfl]) p h
    · rw [if_neg hfl]
      exact flash_stage2_inv area hW hE
        ⟨st.start, st.bpos + min span.length (area.write_size - st.bpos),
          st.buf ++ span.take (min span.length (area.write_size - st.bpos)), st.log⟩
        (span.drop (min span.length (area.write_size - st.bpos)))
        hstart (by dsimp only; omega) (by dsimp only; exact hbuf2.symm) hlog

theorem flash_foldl_inv (area : StorageArea) (hW : 0 < area.write_size)
    (hE : area.write_size ∣ area.erase_size) :
    ∀ (iovec : List (List Nat)) (st : FlashWvSt),
      area.write_size ∣ st.start → st.bpos < area.write_size →
      st.bpos = st.buf.length →
      (∀ p ∈ st.log, area.write_size ∣ p.1 ∧ area.write_size ∣ p.2.length) →
      ∀ p ∈ (iovec.foldl (sa_flash_writev_span area) st).log,
        area.write_size ∣ p.1 ∧ area.write_size ∣ p.2.length := by
  intro iovec
  induction iovec with
  | nil =>
    intro st h1 h2 h3 h4 p hp
    exact h4 p hp
  | cons span rest ih =>
    intro st h1 h2 h3 h4 p hp
    have hinv := flash_span_inv area hW hE st span h1 h2 h3 h4
    exact ih _ hinv.1 hinv.2.1 hinv.2.2.1 hinv.2.2.2 p hp

/-- C7: for every `sa_flash_writev` call whose offset is a multiple of the
write block size W and whose total length is a multiple of W, every write
issued to the underlying flash driver starts at an offset that is a
multiple of W and has a length that is a multiple of W, regardless of how
the iovec span boundaries fall (the erase block size is a multiple of W by
the storage-area invariant). -/
theorem C7_flash_writev_aligned (area : StorageArea) (start : Nat)
    (iovec : List (List Nat))
    (hW : 0 < area.write_size) (hstart : area.write_size ∣ start)
    (hE : area.write_size ∣ area.erase_size)
    (hS : store_iovec_size iovec % area.write_size = 0) :
    ∀ p ∈ sa_flash_writev area start iovec,
      area.write_size ∣ p.1 ∧ area.write_size ∣ p.2.length := by
  intro p hp
  exact flash_foldl_inv area hW hE iovec ⟨start, 0, [], []⟩ hstart hW rfl
    (by intro q hq; simp at hq) p hp

theorem C7_flash_writev_aligned_witness :
    (4 : Nat) ∣ ((8 : Nat), ([1, 2, 3, 4] : List Nat)).1 ∧
    (4 : Nat) ∣ ((8 : Nat), ([1, 2, 3, 4] : List Nat)).2.length :=
  C7_flash_writev_aligned ⟨4, 8, 4, 16⟩ 8 [[1, 2, 3], [4, 5, 6, 7, 8]]
    (by decide) (by decide) (by decide) (by decide)
    (8, [1, 2, 3, 4]) (by decide)

/-! ## C9 -/

theorem scan_loop_size (store : Store) (d : StoreData) (mem : Mem) (sector : Nat)
    (wrapcheck recover : Bool) :
    ∀ (fuel loc size : Nat) (crc_ok : Bool) (r : Rec),
      scan_loop store d mem sector wrapcheck recover fuel loc size crc_ok = (0, r) →
      r.sector = sector ∧ r.size = scan_rsize store mem sector r.loc ∧
        0 < scan_rsize store mem sector r.loc := by
  intro fuel
  induction fuel with
  | zero =>
    intro loc size crc_ok r h
    rw [scan_loop_zero] at h
    injection h with h1 h2
    exact absurd h1 (by decide)
  | succ f ih =>
    intro loc size crc_ok r h
    rw [scan_loop_step] at h
    by_cases hexit : (d.sector = sector ∧ d.loc ≤ scan_rdpos store loc size) ∨
        scan_rdpos store loc size = store.sector_size
    · rw [if_pos hexit] at h
      injection h with h1 h2
      exact absurd h1 (by decide)
    · rw [if_neg hexit] at h
      by_cases hacc : (scan_magic_ok store mem sector (scan_rdpos store loc size) &&
          scan_wrap_ok store d mem sector (scan_rdpos store loc size) wrapcheck &&
          scan_size_ok store mem sector (scan_rdpos store loc size) &&
          (if scan_size_ok store mem sector (scan_rdpos store loc size) && !crc_ok then
            store_record_valid store mem ⟨sector, scan_rdpos store loc size,
              scan_rsize store mem sector (scan_rdpos store loc size)⟩
          else crc_ok)) = true
      · rw [if_pos hacc] at h
        injection h with h1 h2
        subst h2
        have hS : scan_size_ok store mem sector (scan_rdpos store loc size) = true := by
          simp only [Bool.and_eq_true] at hacc
          exact hacc.1.2
        simp only [scan_size_ok, Bool.and_eq_true, decide_eq_true_eq] at hS
        exact ⟨rfl, rfl, hS.1⟩
      · rw [if_neg hacc] at h
        by_cases hrec : recover = false
        · rw [if_pos hrec] at h
          injection h with h1 h2
          exact absurd h1 (by decide)
        · rw [if_neg hrec] at h
          exact ih _ _ _ _ h

theorem store_record_next_in_sector_size (store : Store) (d : StoreData) (mem : Mem)
    (rec : Rec) (wrapcheck recover : Bool) (r : Rec)
    (h : store_record_next_in_sector store d mem rec wrapcheck recover = (0, r)) :
    r.sector = rec.sector ∧ r.size = scan_rsize store mem rec.sector r.loc ∧
      0 < scan_rsize store mem rec.sector r.loc := by
  unfold store_record_next_in_sector at h
  exact scan_loop_size store d mem rec.sector wrapcheck recover _ _ _ _ r h

theorem record_next_loop_size (store : Store) (d : StoreData) (mem : Mem) :
    ∀ (fuel : Nat) (rec r : Rec),
      record_next_loop store d mem fuel rec = (0, r) →
      r.size = scan_rsize store mem r.sector r.loc ∧
        0 < scan_rsize store mem r.sector r.loc := by
  intro fuel
  induction fuel with
  | zero =>
    intro rec r h
    injection h with h1 h2
    exact absurd h1 (by decide)
  | succ f ih =>
    intro rec r h
    simp only [record_next_loop_step] at h
    by_cases h1 : (store_record_next_in_sector store d mem rec true true).1 ≠ -2
    · rw [if_pos h1] at h
      have h2 := store_record_next_in_sector_size store d mem rec true true r h
      exact ⟨by rw [h2.1]; exact h2.2.1, by rw [h2.1]; exact h2.2.2⟩
    · rw [if_neg h1] at h
      push_neg at h1
      by_cases h2 : (store_record_next_in_sector store d mem rec true true).2.sector =
          d.sector
      · rw [if_pos h2] at h
        rw [h] at h1
        have h4 : (0 : Int) = -2 := h1
        exact absurd h4 (by decide)
      · rw [if_neg h2] at h
        exact ih _ r h

theorem storage_area_record_next_size (store : Store) (d : StoreData) (mem : Mem)
    (cur : Option Rec) (r : Rec)
    (h : storage_area_record_next store d mem cur = (0, r)) :
    r.size = scan_rsize store mem r.sector r.loc ∧
      0 < scan_rsize store mem r.sector r.loc := by
  unfold storage_area_record_next at h
  rw [if_neg (by simp [store_valid])] at h
  exact record_next_loop_size store d mem _ _ r h

/-- C9: on a mounted store with room for a bare frame and no medium errors,
`writev` with an empty payload returns success and writes a frame whose
size field is zero (both size bytes of the header are 0), but no in-sector
scan and hence no cursor walk on the resulting medium ever returns that
record, because every record the scan accepts has a strictly positive size
field read from the medium at its location. -/
theorem C9_empty_payload (store : Store) (wfail : Nat → Bool) (mem : Mem)
    (d : StoreData) (iovec : List (List Nat))
    (hapi : store.api ≠ ApiKind.ro) (hready : d.ready = true)
    (hnf : ∀ o, wfail o = false)
    (hW : 0 < store.area.write_size)
    (hsz : store.sector_size < 2 ^ 64)
    (hiov : store_iovec_size iovec = 0)
    (hroom : SAS_ALIGNUP 8 store.area.write_size ≤ store.sector_size - d.loc) :
    (storage_area_store_writev store wfail mem d iovec).1 = 0 ∧
    (storage_area_store_writev store wfail mem d iovec).2.1
      (d.sector * store.sector_size + d.loc + 2) = 0 ∧
    (storage_area_store_writev store wfail mem d iovec).2.1
      (d.sector * store.sector_size + d.loc + 3) = 0 ∧
    (∀ (d2 : StoreData) (cur : Option Rec) (r : Rec),
      storage_area_record_next store d2
        (storage_area_store_writev store wfail mem d iovec).2.1 cur = (0, r) →
      ¬(r.sector = d.sector ∧ r.loc = d.loc)) := by
  have hready2 : ¬(store_ready store d = false) := by
    simp [store_ready, store_valid, hready]
  have hal8 : 8 ≤ SAS_ALIGNUP 8 store.area.write_size := alignup_ge _ 8 hW
  have hfl : iovec.flatten = [] := by
    have : iovec.flatten.length = 0 := by
      rw [length_flatten_eq_iovec_size]
      exact hiov
    exact List.eq_nil_of_length_eq_zero this
  have hred : storage_area_store_writev store wfail mem d iovec =
      (0, writeBytes mem (d.sector * store.sector_size + d.loc)
        ([SAS_MAGIC, d.wrapcnt] ++ sys_put_le16 (store_iovec_size iovec) ++
          iovec.flatten ++
          (sys_put_le32 (writev_crc SAS_CRCINIT store.crc_skip iovec) ++
            List.replicate
              (SAS_ALIGNUP (SAS_HDRSIZE + store_iovec_size iovec + SAS_CRCSIZE)
                store.area.write_size -
                (SAS_HDRSIZE + store_iovec_size iovec + SAS_CRCSIZE)) SAS_FILLVALUE)),
        { d with loc := d.loc + SAS_ALIGNUP (SAS_HDRSIZE + store_iovec_size iovec + SAS_CRCSIZE) store.area.write_size }) := by
    rw [storage_area_store_writev, if_neg hapi, if_neg hready2]
    simp only [store_writev]
    rw [size_t_sub_eq _ _ (by
      simp only [SAS_HDRSIZE, SAS_CRCSIZE, hiov]
      omega) hsz]
    rw [if_neg (by
      simp only [SAS_HDRSIZE, SAS_CRCSIZE, hiov]
      omega)]
    rw [store_writev_loop_step, if_pos (hnf _)]
  have hbytes : ∀ i, i < 4 →
      (storage_area_store_writev store wfail mem d iovec).2.1
        (d.sector * store.sector_size + d.loc + i) =
      ([SAS_MAGIC, d.wrapcnt, store_iovec_size iovec % 256,
        store_iovec_size iovec / 256 % 256].getD i 0) := by
    intro i hi
    rw [hred]
    dsimp only
    rw [hfl]
    have hfr : [SAS_MAGIC, d.wrapcnt] ++ sys_put_le16 (store_iovec_size iovec) ++
        ([] : List Nat) ++
        (sys_put_le32 (writev_crc SAS_CRCINIT store.crc_skip iovec) ++
          List.replicate
            (SAS_ALIGNUP (SAS_HDRSIZE + store_iovec_size iovec + SAS_CRCSIZE)
              store.area.write_size -
              (SAS_HDRSIZE + store_iovec_size iovec + SAS_CRCSIZE)) SAS_FILLVALUE) =
        SAS_MAGIC :: d.wrapcnt :: store_iovec_size iovec % 256 ::
          store_iovec_size iovec / 256 % 256 ::
          (sys_put_le32 (writev_crc SAS_CRCINIT store.crc_skip iovec) ++
            List.replicate
              (SAS_ALIGNUP (SAS_HDRSIZE + store_iovec_size iovec + SAS_CRCSIZE)
                store.area.write_size -
                (SAS_HDRSIZE + store_iovec_size iovec + SAS_CRCSIZE)) SAS_FILLVALUE) := by
      simp [sys_put_le16]
    rw [hfr]
    rw [writeBytes_apply_in _ _ _ _ (by omega) (by
      simp only [List.length_cons]
      omega)]
    have hidx : d.sector * store.sector_size + d.loc + i -
        (d.sector * store.sector_size + d.loc) = i := by omega
    rw [hidx]
    interval_cases i <;> simp [List.getD]
  refine ⟨by rw [hred], ?_, ?_, ?_⟩
  · have := hbytes 2 (by omega)
    rw [this]
    simp [hiov]
  · have := hbytes 3 (by omega)
    rw [this]
    simp [hiov]
  · intro d2 cur r h hr
    have hs := storage_area_record_next_size store d2 _ cur r h
    rw [hr.1, hr.2] at hs
    have h2 := hbytes 2 (by omega)
    have h3 := hbytes 3 (by omega)
    simp [hiov] at h2 h3
    rw [scan_rsize] at hs
    have hadd2 : d.sector * store.sector_size + d.loc + 2 =
        d.sector * store.sector_size + d.loc + 2 := rfl
    rw [h2, h3] at hs
    simp [sys_get_le16] at hs

theorem C9_empty_payload_witness :
    (storage_area_store_writev ⟨⟨4, 16, 4, 4⟩, ApiKind.scb, none, 0, 16, 2, 0, 0⟩
      (fun _ => false) (fun _ => 255) ⟨true, 0, 0, 1⟩ [[]]).1 = 0 ∧
    (storage_area_store_writev ⟨⟨4, 16, 4, 4⟩, ApiKind.scb, none, 0, 16, 2, 0, 0⟩
      (fun _ => false) (fun _ => 255) ⟨true, 0, 0, 1⟩ [[]]).2.1 (0 * 16 + 0 + 2) = 0 ∧
    (storage_area_store_writev ⟨⟨4, 16, 4, 4⟩, ApiKind.scb, none, 0, 16, 2, 0, 0⟩
      (fun _ => false) (fun _ => 255) ⟨true, 0, 0, 1⟩ [[]]).2.1 (0 * 16 + 0 + 3) = 0 ∧
    (∀ (d2 : StoreData) (cur : Option Rec) (r : Rec),
      storage_area_record_next ⟨⟨4, 16, 4, 4⟩, ApiKind.scb, none, 0, 16, 2, 0, 0⟩ d2
        (storage_area_store_writev ⟨⟨4, 16, 4, 4⟩, ApiKind.scb, none, 0, 16, 2, 0, 0⟩
          (fun _ => false) (fun _ => 255) ⟨true, 0, 0, 1⟩ [[]]).2.1 cur = (0, r) →
      ¬(r.sector = 0 ∧ r.loc = 0)) :=
  C9_empty_payload ⟨⟨4, 16, 4, 4⟩, ApiKind.scb, none, 0, 16, 2, 0, 0⟩
    (fun _ => false) (fun _ => 255) ⟨true, 0, 0, 1⟩ [[]]
    (by decide) rfl (fun _ => rfl) (by decide) (by decide) (by decide) (by decide)

/-! ## C1 -/

theorem sector_advance_zero (store : Store) (s : Nat) :
    sector_advance store s 0 = s := rfl

theorem sector_advance_succ (store : Store) (s k : Nat) :
    sector_advance store s (k + 1) =
      sector_advance store (if s + 1 = store.sector_cnt then 0 else s + 1) k := rfl

theorem sector_advance_mod (store : Store) (hk : 0 < store.sector_cnt) :
    ∀ (cnt s : Nat), s < store.sector_cnt →
      sector_advance store s cnt = (s + cnt) % store.sector_cnt := by
  intro cnt
  induction cnt with
  | zero =>
    intro s hs
    rw [sector_advance_zero, Nat.mod_eq_of_lt (by omega)]
    omega
  | succ k ih =>
    intro s hs
    rw [sector_advance_succ]
    by_cases hx : s + 1 = store.sector_cnt
    · rw [if_pos hx, ih 0 hk]
      have h2 : s + (k + 1) = store.sector_cnt + k := by omega
      rw [h2, Nat.add_mod_left, Nat.zero_add]
    · rw [if_neg hx, ih (s + 1) (by omega)]
      have h2 : s + 1 + k = s + (k + 1) := by omega
      rw [h2]

theorem scan_loop_erased (store : Store) (d : StoreData) (mem : Mem) (v e : Nat)
    (hW : 0 < store.area.write_size)
    (he : ∀ a, v * store.sector_size ≤ a → mem a = e)
    (hmag : e ≠ SAS_MAGIC) (hsec : v ≠ d.sector) :
    ∀ (fuel loc : Nat) (crc_ok : Bool), loc ≤ store.sector_size →
      store.area.write_size ∣ (store.sector_size - loc) →
      store.sector_size - loc < fuel →
      scan_loop store d mem v true true fuel loc 0 crc_ok =
        (-2, ⟨v, store.sector_size, 0⟩) := by
  intro fuel
  induction fuel with
  | zero =>
    intro loc crc_ok h1 h2 h3
    omega
  | succ f ih =>
    intro loc crc_ok h1 h2 h3
    rw [scan_loop_step, scan_rdpos_zero]
    by_cases hloc : loc = store.sector_size
    · rw [if_pos (Or.inr hloc), hloc]
    · rw [if_neg (by
        rintro (⟨hh, -⟩ | hh)
        · exact hsec hh.symm
        · exact hloc hh)]
      have hm : scan_magic_ok store mem v loc = false := by
        simp [scan_magic_ok, he _ (Nat.le_add_right _ _), hmag]
      rw [if_neg (by simp [hm])]
      rw [if_neg (by decide)]
      rw [ite_self]
      have hWa : store.area.write_size ≤ store.sector_size - loc :=
        Nat.le_of_dvd (by omega) h2
      apply ih (loc + store.area.write_size) false (by omega)
      · have heq : store.sector_size - (loc + store.area.write_size) =
            store.sector_size - loc - store.area.write_size := by omega
        rw [heq]
        exact Nat.dvd_sub' h2 dvd_rfl
      · omega

theorem scan_accept_first (store : Store) (d : StoreData) (mem : Mem) (P : Nat)
    (hcook : store.sector_cookie = none)
    (hdloc : 0 < d.loc) (hdsec : d.sector = 0)
    (hs8 : 8 < store.sector_size) (hs64 : store.sector_size < 2 ^ 64)
    (hb0 : mem (0 * store.sector_size + 0) = SAS_MAGIC)
    (hb1 : mem (0 * store.sector_size + 0 + 1) = d.wrapcnt)
    (hb2 : mem (0 * store.sector_size + 0 + 2) = P % 256)
    (hb3 : mem (0 * store.sector_size + 0 + 3) = P / 256 % 256)
    (hP0 : 0 < P) (hPs : P + 8 < store.sector_size) (hP16 : P < 65536) :
    store_record_next_in_sector store d mem ⟨0, 0, 0⟩ true true = (0, ⟨0, 0, P⟩) := by
  have hrs : scan_rsize store mem 0 0 = P := by
    unfold scan_rsize
    rw [hb2, hb3]
    exact get_put_le16 P hP16
  have hstep : store_record_next_in_sector store d mem ⟨0, 0, 0⟩ true true =
      scan_loop store d mem 0 true true (store.sector_size + 1 + 1) 0 0 true := by
    simp [store_record_next_in_sector, hcook]
  rw [hstep, scan_loop_step, scan_rdpos_zero]
  rw [if_neg (by
    rintro (⟨-, hh⟩ | hh)
    · omega
    · omega)]
  have hb0n : mem 0 = SAS_MAGIC := by
    have hh := hb0
    rw [show (0 : Nat) * store.sector_size + 0 = 0 from by omega] at hh
    exact hh
  have hb1n : mem 1 = d.wrapcnt := by
    have hh := hb1
    rw [show (0 : Nat) * store.sector_size + 0 + 1 = 1 from by omega] at hh
    exact hh
  have hM : scan_magic_ok store mem 0 0 = true := by
    simp [scan_magic_ok, hb0n]
  have hWk : scan_wrap_ok store d mem 0 0 true = true := by
    simp [scan_wrap_ok, hb1n, hdsec]
  have hS : scan_size_ok store mem 0 0 = true := by
    unfold scan_size_ok
    rw [hrs]
    have h8 : (0 + SAS_CRCSIZE + SAS_HDRSIZE) = 8 := rfl
    rw [h8, size_t_sub_eq _ _ (by omega) hs64]
    rw [Bool.and_eq_true, decide_eq_true_eq, decide_eq_true_eq]
    exact ⟨hP0, by omega⟩
  rw [if_pos (by simp [hM, hWk, hS])]
  rw [hrs]

theorem scan_after_record (store : Store) (d : StoreData) (mem : Mem) (P : Nat)
    (hcook : store.sector_cookie = none) (hdsec : d.sector = 0)
    (hdloc : d.loc ≤ scan_rdpos store 0 P) :
    store_record_next_in_sector store d mem ⟨0, 0, P⟩ true true =
      (-2, ⟨0, scan_rdpos store 0 P, 0⟩) := by
  have hstep : store_record_next_in_sector store d mem ⟨0, 0, P⟩ true true =
      scan_loop store d mem 0 true true (store.sector_size + 1 + 1) 0 P true := by
    simp [store_record_next_in_sector, hcook]
  rw [hstep, scan_loop_step]
  rw [if_pos (Or.inl ⟨hdsec, hdloc⟩)]

theorem record_next_loop_erased_walk (store : Store) (d : StoreData) (mem : Mem)
    (e P : Nat)
    (hW : 0 < store.area.write_size)
    (hcook : store.sector_cookie = none)
    (hsW : store.sector_size % store.area.write_size = 0)
    (hdsec : d.sector = 0)
    (he : ∀ a, store.sector_size ≤ a → mem a = e)
    (hmag : e ≠ SAS_MAGIC)
    (hacc0 : store_record_next_in_sector store d mem ⟨0, 0, 0⟩ true true =
      (0, ⟨0, 0, P⟩)) :
    ∀ (n v fuel : Nat), 0 < v → v < store.sector_cnt → store.sector_cnt - v = n →
      n + 1 < fuel →
      record_next_loop store d mem fuel ⟨v, 0, 0⟩ = (0, ⟨0, 0, P⟩) := by
  intro n
  induction n with
  | zero =>
    intro v fuel h1 h2 h3 h4
    omega
  | succ k ih =>
    intro v fuel h1 h2 h3 h4
    obtain ⟨f, rfl⟩ : ∃ f, fuel = f + 1 := ⟨fuel - 1, by omega⟩
    have hscan : store_record_next_in_sector store d mem ⟨v, 0, 0⟩ true true =
        (-2, ⟨v, store.sector_size, 0⟩) := by
      have hstep : store_record_next_in_sector store d mem ⟨v, 0, 0⟩ true true =
          scan_loop store d mem v true true (store.sector_size + 1 + 1) 0 0 true := by
        simp [store_record_next_in_sector, hcook]
      rw [hstep]
      have hvs : store.sector_size ≤ v * store.sector_size :=
        Nat.le_mul_of_pos_left store.sector_size h1
      apply scan_loop_erased store d mem v e hW
        (fun a ha => he a (by omega)) hmag (by omega)
        (store.sector_size + 1 + 1) 0 true (by omega)
      · rw [Nat.sub_zero]
        exact Nat.dvd_of_mod_eq_zero hsW
      · omega
    simp only [record_next_loop_step]
    by_cases hc1 : (store_record_next_in_sector store d mem ⟨v, 0, 0⟩ true true).1 ≠ -2
    · exfalso
      apply hc1
      rw [hscan]
    · rw [if_neg hc1]
      by_cases hc2 : (store_record_next_in_sector store d mem ⟨v, 0, 0⟩ true true).2.sector =
          d.sector
      · exfalso
        rw [hscan] at hc2
        have hveq : v = d.sector := hc2
        omega
      · rw [if_neg hc2]
        have hrec : (⟨sector_advance store
            (store_record_next_in_sector store d mem ⟨v, 0, 0⟩ true true).2.sector 1,
            0, 0⟩ : Rec) = ⟨sector_advance store v 1, 0, 0⟩ := by
          rw [hscan]
        rw [hrec]
        have hsa : sector_advance store v 1 =
            if v + 1 = store.sector_cnt then 0 else v + 1 := rfl
        by_cases hvk : v + 1 = store.sector_cnt
        · rw [hsa, if_pos hvk]
          obtain ⟨f2, rfl⟩ : ∃ f2, f = f2 + 1 := ⟨f - 1, by omega⟩
          simp only [record_next_loop_step]
          rw [if_pos (by
            rw [hacc0]
            exact (show (0 : Int) ≠ -2 by decide))]
          exact hacc0
        · rw [hsa, if_neg hvk]
          exact ih (v + 1) f (by omega) (by omega) (by omega) (by omega)

/-- C1 (amended): on a store whose medium holds a constant non-magic byte
(freshly mounted at sector 0, offset 0, with no induced write errors), a
`writev` of a payload X with `0 < len X`, `len X + 8 < sector_size` (strict
room for the frame: the exact-fit payload `len X = sector_size - 8` is
accepted by `writev` but is invisible to the scan, so strict inequality is
required) and `len X < 2^16` succeeds, and a subsequent cursor walk yields
exactly one record — located at sector 0, offset 0, with size field
`len X` — whose `readv` returns exactly X; the next `next` call returns
-ENOENT. -/
theorem C1_round_trip (store : Store) (wfail : Nat → Bool) (mem : Mem)
    (d : StoreData) (spans : List (List Nat)) (e P : Nat)
    (hapi : store.api ≠ ApiKind.ro)
    (hcook : store.sector_cookie = none)
    (hready : d.ready = true) (hdsec : d.sector = 0) (hdloc : d.loc = 0)
    (hnf : ∀ o, wfail o = false)
    (hW : 0 < store.area.write_size)
    (hsW : store.sector_size % store.area.write_size = 0)
    (hs64 : store.sector_size < 2 ^ 64)
    (hk : 0 < store.sector_cnt)
    (hmem : ∀ a, mem a = e)
    (hmag : e ≠ SAS_MAGIC)
    (hPdef : store_iovec_size spans = P)
    (hP0 : 0 < P)
    (hPs : P + 8 < store.sector_size)
    (hP16 : P < 65536) :
    (storage_area_store_writev store wfail mem d spans).1 = 0 ∧
    storage_area_record_next store
      (storage_area_store_writev store wfail mem d spans).2.2
      (storage_area_store_writev store wfail mem d spans).2.1 none = (0, ⟨0, 0, P⟩) ∧
    storage_area_record_readv store
      (storage_area_store_writev store wfail mem d spans).2.1
      ⟨0, 0, P⟩ 0 [P] = (0, spans.flatten) ∧
    (storage_area_record_next store
      (storage_area_store_writev store wfail mem d spans).2.2
      (storage_area_store_writev store wfail mem d spans).2.1
      (some ⟨0, 0, P⟩)).1 = -2 := by
  have hready2 : ¬(store_ready store d = false) := by
    simp [store_ready, store_valid, hready]
  have hflen : spans.flatten.length = P := by
    rw [length_flatten_eq_iovec_size, hPdef]
  have hlen8 : SAS_HDRSIZE + store_iovec_size spans + SAS_CRCSIZE = 8 + P := by
    simp only [SAS_HDRSIZE, SAS_CRCSIZE, hPdef]
    omega
  have hsecpos : d.sector * store.sector_size = 0 := by
    rw [hdsec]
    ring
  have halge : SAS_HDRSIZE + store_iovec_size spans + SAS_CRCSIZE ≤
      SAS_ALIGNUP (SAS_HDRSIZE + store_iovec_size spans + SAS_CRCSIZE)
        store.area.write_size := alignup_ge _ _ hW
  have halle : SAS_ALIGNUP (SAS_HDRSIZE + store_iovec_size spans + SAS_CRCSIZE)
      store.area.write_size ≤ store.sector_size :=
    alignup_le_of_le _ _ _ hW (by omega) hsW
  have hred : storage_area_store_writev store wfail mem d spans =
      (0, writeBytes mem (d.sector * store.sector_size + d.loc)
        ([SAS_MAGIC, d.wrapcnt] ++ sys_put_le16 (store_iovec_size spans) ++
          spans.flatten ++
          (sys_put_le32 (writev_crc SAS_CRCINIT store.crc_skip spans) ++
            List.replicate
              (SAS_ALIGNUP (SAS_HDRSIZE + store_iovec_size spans + SAS_CRCSIZE)
                store.area.write_size -
                (SAS_HDRSIZE + store_iovec_size spans + SAS_CRCSIZE)) SAS_FILLVALUE)),
        { d with loc := d.loc + SAS_ALIGNUP (SAS_HDRSIZE + store_iovec_size spans + SAS_CRCSIZE) store.area.write_size }) := by
    rw [storage_area_store_writev, if_neg hapi, if_neg hready2]
    simp only [store_writev]
    rw [size_t_sub_eq _ _ (by omega) hs64]
    rw [if_neg (by omega)]
    rw [store_writev_loop_step, if_pos (hnf _)]
  have hfr : [SAS_MAGIC, d.wrapcnt] ++ sys_put_le16 (store_iovec_size spans) ++
      spans.flatten ++
      (sys_put_le32 (writev_crc SAS_CRCINIT store.crc_skip spans) ++
        List.replicate
          (SAS_ALIGNUP (SAS_HDRSIZE + store_iovec_size spans + SAS_CRCSIZE)
            store.area.write_size -
            (SAS_HDRSIZE + store_iovec_size spans + SAS_CRCSIZE)) SAS_FILLVALUE) =
      SAS_MAGIC :: d.wrapcnt :: store_iovec_size spans % 256 ::
        store_iovec_size spans / 256 % 256 ::
        (spans.flatten ++
          (sys_put_le32 (writev_crc SAS_CRCINIT store.crc_skip spans) ++
            List.replicate
              (SAS_ALIGNUP (SAS_HDRSIZE + store_iovec_size spans + SAS_CRCSIZE)
                store.area.write_size -
                (SAS_HDRSIZE + store_iovec_size spans + SAS_CRCSIZE)) SAS_FILLVALUE)) := by
    simp [sys_put_le16]
  have hframelen : ([SAS_MAGIC, d.wrapcnt] ++ sys_put_le16 (store_iovec_size spans) ++
      spans.flatten ++
      (sys_put_le32 (writev_crc SAS_CRCINIT store.crc_skip spans) ++
        List.replicate
          (SAS_ALIGNUP (SAS_HDRSIZE + store_iovec_size spans + SAS_CRCSIZE)
            store.area.write_size -
            (SAS_HDRSIZE + store_iovec_size spans + SAS_CRCSIZE)) SAS_FILLVALUE)).length =
      SAS_ALIGNUP (SAS_HDRSIZE + store_iovec_size spans + SAS_CRCSIZE)
        store.area.write_size := by
    simp only [List.length_append, List.length_cons, List.length_nil, sys_put_le16,
      sys_put_le32, List.length_replicate, hflen]
    omega
  have hi4 : ∀ i, i < 4 →
      writeBytes mem (d.sector * store.sector_size + d.loc)
        ([SAS_MAGIC, d.wrapcnt] ++ sys_put_le16 (store_iovec_size spans) ++
          spans.flatten ++
          (sys_put_le32 (writev_crc SAS_CRCINIT store.crc_skip spans) ++
            List.replicate
              (SAS_ALIGNUP (SAS_HDRSIZE + store_iovec_size spans + SAS_CRCSIZE)
                store.area.write_size -
                (SAS_HDRSIZE + store_iovec_size spans + SAS_CRCSIZE)) SAS_FILLVALUE))
        (0 * store.sector_size + 0 + i) =
      [SAS_MAGIC, d.wrapcnt, P % 256, P / 256 % 256].getD i 0 := by
    intro i hi
    rw [hfr]
    rw [writeBytes_apply_in _ _ _ _ (by omega) (by
      simp only [List.length_cons]
      omega)]
    have hidx : 0 * store.sector_size + 0 + i -
        (d.sector * store.sector_size + d.loc) = i := by omega
    rw [hidx]
    interval_cases i <;> simp [List.getD, hPdef]
  have hpay : ∀ i, i < P →
      writeBytes mem (d.sector * store.sector_size + d.loc)
        ([SAS_MAGIC, d.wrapcnt] ++ sys_put_le16 (store_iovec_size spans) ++
          spans.flatten ++
          (sys_put_le32 (writev_crc SAS_CRCINIT store.crc_skip spans) ++
            List.replicate
              (SAS_ALIGNUP (SAS_HDRSIZE + store_iovec_size spans + SAS_CRCSIZE)
                store.area.write_size -
                (SAS_HDRSIZE + store_iovec_size spans + SAS_CRCSIZE)) SAS_FILLVALUE))
        (0 * store.sector_size + 0 + 0 + SAS_HDRSIZE + i) =
      spans.flatten.getD i 0 := by
    intro i hi
    have h4 : SAS_HDRSIZE = 4 := rfl
    rw [hfr]
    rw [writeBytes_apply_in _ _ _ _ (by omega) (by
      simp only [List.length_cons, List.length_append, hflen]
      omega)]
    have hidx : 0 * store.sector_size + 0 + 0 + SAS_HDRSIZE + i -
        (d.sector * store.sector_size + d.loc) = i + 1 + 1 + 1 + 1 := by omega
    rw [hidx]
    simp only [List.getD_cons_succ]
    rw [List.getD_append _ _ _ _ (by rw [hflen]; exact hi)]
  have hout : ∀ a, store.sector_size ≤ a →
      writeBytes mem (d.sector * store.sector_size + d.loc)
        ([SAS_MAGIC, d.wrapcnt] ++ sys_put_le16 (store_iovec_size spans) ++
          spans.flatten ++
          (sys_put_le32 (writev_crc SAS_CRCINIT store.crc_skip spans) ++
            List.replicate
              (SAS_ALIGNUP (SAS_HDRSIZE + store_iovec_size spans + SAS_CRCSIZE)
                store.area.write_size -
                (SAS_HDRSIZE + store_iovec_size spans + SAS_CRCSIZE)) SAS_FILLVALUE))
        a = e := by
    intro a ha
    rw [writeBytes_apply_out _ _ _ _ (Or.inr (by rw [hframelen]; omega))]
    exact hmem a
  have hb0 : writeBytes mem (d.sector * store.sector_size + d.loc)
      ([SAS_MAGIC, d.wrapcnt] ++ sys_put_le16 (store_iovec_size spans) ++
        spans.flatten ++
        (sys_put_le32 (writev_crc SAS_CRCINIT store.crc_skip spans) ++
          List.replicate
            (SAS_ALIGNUP (SAS_HDRSIZE + store_iovec_size spans + SAS_CRCSIZE)
              store.area.write_size -
              (SAS_HDRSIZE + store_iovec_size spans + SAS_CRCSIZE)) SAS_FILLVALUE))
      (0 * store.sector_size + 0) = SAS_MAGIC := hi4 0 (by omega)
  have hb1 : writeBytes mem (d.sector * store.sector_size + d.loc)
      ([SAS_MAGIC, d.wrapcnt] ++ sys_put_le16 (store_iovec_size spans) ++
        spans.flatten ++
        (sys_put_le32 (writev_crc SAS_CRCINIT store.crc_skip spans) ++
          List.replicate
            (SAS_ALIGNUP (SAS_HDRSIZE + store_iovec_size spans + SAS_CRCSIZE)
              store.area.write_size -
              (SAS_HDRSIZE + store_iovec_size spans + SAS_CRCSIZE)) SAS_FILLVALUE))
      (0 * store.sector_size + 0 + 1) = d.wrapcnt := hi4 1 (by omega)
  have hb2 : writeBytes mem (d.sector * store.sector_size + d.loc)
      ([SAS_MAGIC, d.wrapcnt] ++ sys_put_le16 (store_iovec_size spans) ++
        spans.flatten ++
        (sys_put_le32 (writev_crc SAS_CRCINIT store.crc_skip spans) ++
          List.replicate
            (SAS_ALIGNUP (SAS_HDRSIZE + store_iovec_size spans + SAS_CRCSIZE)
              store.area.write_size -
              (SAS_HDRSIZE + store_iovec_size spans + SAS_CRCSIZE)) SAS_FILLVALUE))
      (0 * store.sector_size + 0 + 2) = P % 256 := hi4 2 (by omega)
  have hb3 : writeBytes mem (d.sector * store.sector_size + d.loc)
      ([SAS_MAGIC, d.wrapcnt] ++ sys_put_le16 (store_iovec_size spans) ++
        spans.flatten ++
        (sys_put_le32 (writev_crc SAS_CRCINIT store.crc_skip spans) ++
          List.replicate
            (SAS_ALIGNUP (SAS_HDRSIZE + store_iovec_size spans + SAS_CRCSIZE)
              store.area.write_size -
              (SAS_HDRSIZE + store_iovec_size spans + SAS_CRCSIZE)) SAS_FILLVALUE))
      (0 * store.sector_size + 0 + 3) = P / 256 % 256 := hi4 3 (by omega)
  have haccept : store_record_next_in_sector store
      { d with loc := d.loc + SAS_ALIGNUP (SAS_HDRSIZE + store_iovec_size spans + SAS_CRCSIZE) store.area.write_size }
      (writeBytes mem (d.sector * store.sector_size + d.loc)
        ([SAS_MAGIC, d.wrapcnt] ++ sys_put_le16 (store_iovec_size spans) ++
          spans.flatten ++
          (sys_put_le32 (writev_crc SAS_CRCINIT store.crc_skip spans) ++
            List.replicate
              (SAS_ALIGNUP (SAS_HDRSIZE + store_iovec_size spans + SAS_CRCSIZE)
                store.area.write_size -
                (SAS_HDRSIZE + store_iovec_size spans + SAS_CRCSIZE)) SAS_FILLVALUE)))
      ⟨0, 0, 0⟩ true true = (0, ⟨0, 0, P⟩) :=
    scan_accept_first store _ _ P hcook
      (by show 0 < d.loc + SAS_ALIGNUP (SAS_HDRSIZE + store_iovec_size spans + SAS_CRCSIZE) store.area.write_size; omega)
      (by show d.sector = 0; exact hdsec)
      (by omega) hs64 hb0 hb1 hb2 hb3 hP0 hPs hP16
  refine ⟨by rw [hred], ?_, ?_, ?_⟩
  · rw [hred]
    dsimp only
    simp only [storage_area_record_next, store_valid]
    rw [if_neg (by simp)]
    have hsa : sector_advance store
        ({ d with loc := d.loc + SAS_ALIGNUP (SAS_HDRSIZE + store_iovec_size spans + SAS_CRCSIZE) store.area.write_size } : StoreData).sector
        (store.spare_sectors + 1) =
        (store.spare_sectors + 1) % store.sector_cnt := by
      show sector_advance store d.sector (store.spare_sectors + 1) = _
      rw [hdsec, sector_advance_mod store hk (store.spare_sectors + 1) 0 hk,
        Nat.zero_add]
    rw [hsa]
    by_cases hv0 : (store.spare_sectors + 1) % store.sector_cnt = 0
    · rw [hv0]
      simp only [record_next_loop_step]
      rw [if_pos (by
        rw [haccept]
        exact (show (0 : Int) ≠ -2 by decide))]
      exact haccept
    · exact record_next_loop_erased_walk store _ _ e P hW hcook hsW
        (by show d.sector = 0; exact hdsec) hout hmag haccept
        (store.sector_cnt - (store.spare_sectors + 1) % store.sector_cnt)
        ((store.spare_sectors + 1) % store.sector_cnt)
        (store.sector_cnt + 1 + 1)
        (Nat.pos_of_ne_zero hv0) (Nat.mod_lt _ hk) rfl
        (by
          have := Nat.mod_lt (store.spare_sectors + 1) hk
          omega)
  · rw [hred]
    dsimp only
    have hsum : ([P] : List Nat).sum = P := by simp
    simp only [storage_area_record_readv, store_valid]
    rw [if_neg (by
      rintro (h | h | h | h)
      · exact absurd h (by decide)
      · omega
      · omega
      · rw [hsum] at h
        omega)]
    rw [hsum]
    have h4 : SAS_HDRSIZE = 4 := rfl
    congr 1
    apply readBytes_eq_of _ _ _ _ hflen
    intro i hi
    exact hpay i hi
  · rw [hred]
    dsimp only
    simp only [storage_area_record_next, store_valid]
    rw [if_neg (by simp)]
    have hrd : scan_rdpos store 0 P =
        SAS_ALIGNUP (SAS_HDRSIZE + store_iovec_size spans + SAS_CRCSIZE)
          store.area.write_size := by
      unfold scan_rdpos
      rw [if_pos (by omega : P ≠ 0)]
      congr 1
      rw [hPdef]
      omega
    have hscan2 : store_record_next_in_sector store
        { d with loc := d.loc + SAS_ALIGNUP (SAS_HDRSIZE + store_iovec_size spans + SAS_CRCSIZE) store.area.write_size }
        (writeBytes mem (d.sector * store.sector_size + d.loc)
          ([SAS_MAGIC, d.wrapcnt] ++ sys_put_le16 (store_iovec_size spans) ++
            spans.flatten ++
            (sys_put_le32 (writev_crc SAS_CRCINIT store.crc_skip spans) ++
              List.replicate
                (SAS_ALIGNUP (SAS_HDRSIZE + store_iovec_size spans + SAS_CRCSIZE)
                  store.area.write_size -
                  (SAS_HDRSIZE + store_iovec_size spans + SAS_CRCSIZE)) SAS_FILLVALUE)))
        ⟨0, 0, P⟩ true true = (-2, ⟨0, scan_rdpos store 0 P, 0⟩) :=
      scan_after_record store _ _ P hcook (by show d.sector = 0; exact hdsec)
        (by
          show d.loc + SAS_ALIGNUP (SAS_HDRSIZE + store_iovec_size spans + SAS_CRCSIZE) store.area.write_size ≤ scan_rdpos store 0 P
          rw [hrd]
          omega)
    simp only [record_next_loop_step]
    rw [if_neg (by rw [hscan2]; simp)]
    rw [if_pos (by rw [hscan2]; exact hdsec.symm)]
    rw [hscan2]

theorem C1_round_trip_witness :
    (storage_area_store_writev ⟨⟨4, 16, 4, 4⟩, ApiKind.scb, none, 0, 16, 2, 0, 0⟩
      (fun _ => false) (fun _ => 255) ⟨true, 0, 0, 1⟩ [[1, 2, 3]]).1 = 0 ∧
    storage_area_record_next ⟨⟨4, 16, 4, 4⟩, ApiKind.scb, none, 0, 16, 2, 0, 0⟩
      (storage_area_store_writev ⟨⟨4, 16, 4, 4⟩, ApiKind.scb, none, 0, 16, 2, 0, 0⟩
        (fun _ => false) (fun _ => 255) ⟨true, 0, 0, 1⟩ [[1, 2, 3]]).2.2
      (storage_area_store_writev ⟨⟨4, 16, 4, 4⟩, ApiKind.scb, none, 0, 16, 2, 0, 0⟩
        (fun _ => false) (fun _ => 255) ⟨true, 0, 0, 1⟩ [[1, 2, 3]]).2.1 none =
      (0, ⟨0, 0, 3⟩) ∧
    storage_area_record_readv ⟨⟨4, 16, 4, 4⟩, ApiKind.scb, none, 0, 16, 2, 0, 0⟩
      (storage_area_store_writev ⟨⟨4, 16, 4, 4⟩, ApiKind.scb, none, 0, 16, 2, 0, 0⟩
        (fun _ => false) (fun _ => 255) ⟨true, 0, 0, 1⟩ [[1, 2, 3]]).2.1
      ⟨0, 0, 3⟩ 0 [3] = (0, [1, 2, 3]) ∧
    (storage_area_record_next ⟨⟨4, 16, 4, 4⟩, ApiKind.scb, none, 0, 16, 2, 0, 0⟩
      (storage_area_store_writev ⟨⟨4, 16, 4, 4⟩, ApiKind.scb, none, 0, 16, 2, 0, 0⟩
        (fun _ => false) (fun _ => 255) ⟨true, 0, 0, 1⟩ [[1, 2, 3]]).2.2
      (storage_area_store_writev ⟨⟨4, 16, 4, 4⟩, ApiKind.scb, none, 0, 16, 2, 0, 0⟩
        (fun _ => false) (fun _ => 255) ⟨true, 0, 0, 1⟩ [[1, 2, 3]]).2.1
      (some ⟨0, 0, 3⟩)).1 = -2 :=
  C1_round_trip ⟨⟨4, 16, 4, 4⟩, ApiKind.scb, none, 0, 16, 2, 0, 0⟩
    (fun _ => false) (fun _ => 255) ⟨true, 0, 0, 1⟩ [[1, 2, 3]] 255 3
    (by decide) rfl rfl rfl rfl (fun _ => rfl) (by decide) (by decide) (by decide)
    (by decide) (fun _ => rfl) (by decide) (by decide) (by decide) (by decide) (by decide)

set_option maxRecDepth 100000 in
/-- C1 counterexample to the unamended claim: with `sector_size = 16` and
`write_size = 8`, an 8-byte payload gives the exact-fit frame length
`4 + 8 + 4 = 16 = sector_size`; `writev` accepts it (its pre-check is
`sector_size - len < loc`, i.e. `0 < 0`, false) and returns 0, yet the
first `next` of the cursor walk returns -ENOENT instead of the record: the
scan's size bound `size < sector_size - rdpos - 8` rejects `8 < 8`, so the
walk yields zero records, not exactly one. -/
theorem C1_counterexample :
    (storage_area_store_writev ⟨⟨8, 16, 4, 4⟩, ApiKind.scb, none, 0, 16, 2, 0, 0⟩
      (fun _ => false) (fun _ => 0) ⟨true, 0, 0, 1⟩
      [[0, 0, 0, 0, 0, 0, 0, 0]]).1 = 0 ∧
    (storage_area_record_next ⟨⟨8, 16, 4, 4⟩, ApiKind.scb, none, 0, 16, 2, 0, 0⟩
      (storage_area_store_writev ⟨⟨8, 16, 4, 4⟩, ApiKind.scb, none, 0, 16, 2, 0, 0⟩
        (fun _ => false) (fun _ => 0) ⟨true, 0, 0, 1⟩
        [[0, 0, 0, 0, 0, 0, 0, 0]]).2.2
      (storage_area_store_writev ⟨⟨8, 16, 4, 4⟩, ApiKind.scb, none, 0, 16, 2, 0, 0⟩
        (fun _ => false) (fun _ => 0) ⟨true, 0, 0, 1⟩
        [[0, 0, 0, 0, 0, 0, 0, 0]]).2.1 none).1 = -2 := by
  decide

end SAS
